import Mathlib

/-!
# Thermostat task scheduler

A shallow embedding of `Thermostat_Project/gpiointerrupt.c`: the three task
functions (`adjustSetPointTemperature`, `getAmbientTemperature`, `setHeatMode`),
the sensor decode `readTemp`, the two button callbacks and the scheduler loop
of `mainThread`; and, in `Uart2Echo`, of the command recogniser of
`Hardware-Software-Interface-Implementation/uart2echo.c`.

Conventions of the embedding.

* The C globals live in the record `World`; every C function that touches them
  takes a `World` and returns the new one (explicit state passing).
* `int16_t`, `int` and `unsigned long` values are integers, with the
  wrap-around of the 32-bit target written out (`toInt16`, `toInt32`,
  `toULong`) at every place the C code stores into such a variable.
* The enumerations are the integers the C compiler gives them, because the task
  state is an `int` and `switch (state)` compares it with those integers.
* The drivers are outside the repository.  `I2C_transfer` is an oracle held by
  the world (the outcome of the n-th transfer), and `GPIO_write` and the
  `DISPLAY` macro append to two logs held by the world.
-/

namespace Thermostat

/-! ## Machine integers -/

/-- Value stored by an assignment to an `int16_t` variable. -/
def toInt16 (x : Int) : Int := (x + 32768) % 65536 - 32768

/-- Value stored by an assignment to an `int` variable (32 bits on the target). -/
def toInt32 (x : Int) : Int := (x + 2147483648) % 4294967296 - 2147483648

/-- Value stored by an assignment to an `unsigned long` variable (32 bits on the target). -/
def toULong (x : Nat) : Nat := x % 4294967296

/-- The 32-bit pattern of an `int` operand of a bitwise operator. -/
def bits32 (x : Int) : Nat := (x % 4294967296).toNat

/-! ## Constants and enumerations -/

/-- Macro `#define timerPeriod 100` -/
def timerPeriod : Nat := 100

/-- Macro `#define numTasks 3` -/
def numTasks : Nat := 3

/-- Macro `#define checkButtonPeriod 200` -/
def checkButtonPeriod : Nat := 200

/-- Macro `#define checkTemperaturePeriod 500` -/
def checkTemperaturePeriod : Nat := 500

/-- Macro `#define updateHeatModeAndServerPeriod 1000` -/
def updateHeatModeAndServerPeriod : Nat := 1000

/-- First enumerator of `enum BUTTON_STATES`. -/
def INCREASE_TEMPERATURE : Int := 0

/-- Second enumerator of `enum BUTTON_STATES`. -/
def DECREASE_TEMPERATURE : Int := 1

/-- Third enumerator of `enum BUTTON_STATES`. -/
def BUTTON_INIT : Int := 2

/-- First enumerator of `enum TEMPERATURE_SENSOR_STATES`. -/
def READ_TEMPERATURE : Int := 0

/-- Second enumerator of `enum TEMPERATURE_SENSOR_STATES`. -/
def TEMPERATURE_SENSOR_INIT : Int := 1

/-- First enumerator of `enum HEATING_STATES`. -/
def HEAT_OFF : Int := 0

/-- Second enumerator of `enum HEATING_STATES`. -/
def HEAT_ON : Int := 1

/-- Third enumerator of `enum HEATING_STATES`. -/
def HEAT_INIT : Int := 2

/-! ## The world: globals, sensor oracle, output logs -/

/-- Outcome of one `I2C_transfer` with `readCount = 2`: either the two bytes
left in `rxBuffer`, or a failure with the transaction status. -/
inductive Transfer where
  | ok (rx0 rx1 : Fin 256)
  | failed (status : Int)
  deriving DecidableEq, Repr

/-- The two levels `setHeatMode` writes to the LED pin
(`CONFIG_GPIO_LED_ON`, `CONFIG_GPIO_LED_OFF` of the board configuration). -/
inductive Level where
  | LED_OFF
  | LED_ON
  deriving DecidableEq, Repr

/-- One `DISPLAY(snprintf(...))` call of the scheduler loop, by its format and arguments. -/
inductive Message where
  /-- Format `"Error reading temperature sensor (%d)\n\r"` -/
  | sensorError (status : Int)
  /-- Format `"Please power cycle your board by unplugging USB and plugging back in.\n\r"` -/
  | powerCycle
  /-- Format `"<%02d,%02d,%d,%04d>\n\r"` with ambientTemperature, setPoint, state, seconds -/
  | report (ambient setPoint state seconds : Int)
  deriving DecidableEq, Repr

/-- The global variables of the program together with its environment. -/
structure World where
  /-- Global `enum BUTTON_STATES BUTTON_STATE`, the register the callbacks write. -/
  BUTTON_STATE : Int
  /-- Global `int16_t ambientTemperature`. -/
  ambientTemperature : Int
  /-- Global `int16_t setPoint`. -/
  setPoint : Int
  /-- Global `int seconds`. -/
  seconds : Int
  /-- Outcome of the n-th call of `I2C_transfer` made by `readTemp`. -/
  sensor : Nat → Transfer
  /-- Number of calls of `I2C_transfer` made by `readTemp` so far. -/
  transfers : Nat
  /-- Levels written by `GPIO_write(CONFIG_GPIO_LED_0, _)`, oldest first. -/
  led : List Level
  /-- Messages sent through `DISPLAY`, oldest first. -/
  uart : List Message

/-- The globals as `mainThread` finds them when it enters its loop:
`ambientTemperature = 0`, `setPoint = 20`, `seconds = 0` from their
initialisers and `BUTTON_STATE = BUTTON_INIT` from `initGPIO`; the logs start empty. -/
def startWorld (sensor : Nat → Transfer) : World :=
  { BUTTON_STATE := BUTTON_INIT
    ambientTemperature := 0
    setPoint := 20
    seconds := 0
    sensor := sensor
    transfers := 0
    led := []
    uart := [] }

/-! ## Callbacks -/

/-- Callback `gpioIncreaseTemperatureCallback`: `BUTTON_STATE = INCREASE_TEMPERATURE;` -/
def gpioIncreaseTemperatureCallback (w : World) : World :=
  { w with BUTTON_STATE := INCREASE_TEMPERATURE }

/-- Callback `gpioDecreaseTemperatureCallback`: `BUTTON_STATE = DECREASE_TEMPERATURE;` -/
def gpioDecreaseTemperatureCallback (w : World) : World :=
  { w with BUTTON_STATE := DECREASE_TEMPERATURE }

/-! ## Task functions -/

/-- Task function `adjustSetPointTemperature`: the `switch` is on the task state passed in,
its two cases adjust `setPoint` under their guards and reset `BUTTON_STATE`;
after the `switch`, `state = BUTTON_STATE` is returned. -/
def adjustSetPointTemperature (state : Int) (w : World) : Int × World :=
  let w1 : World :=
    if state = INCREASE_TEMPERATURE then
      let w2 : World :=
        if w.setPoint < 99 then { w with setPoint := toInt16 (w.setPoint + 1) } else w
      { w2 with BUTTON_STATE := BUTTON_INIT }
    else if state = DECREASE_TEMPERATURE then
      let w2 : World :=
        if w.setPoint > 0 then { w with setPoint := toInt16 (w.setPoint - 1) } else w
      { w2 with BUTTON_STATE := BUTTON_INIT }
    else w
  (w1.BUTTON_STATE, w1)

/-- The statement `temperature |= 0xF000;` on an `int16_t`: the operand is
promoted to `int`, or-ed with the constant, and the result stored back. -/
def orF000 (temperature : Int) : Int :=
  toInt16 (toInt32 ((bits32 temperature ||| 0xF000 : Nat) : Int))

/-- Function `readTemp`: one transfer; on success the two bytes are combined, scaled and
sign-extended as in the source, on failure two messages are displayed and the
initial value `0` of `temperature` is returned.

`temperature *= 0.0078125` multiplies by `2^-7` in `double`, which is exact,
and the conversion back to `int16_t` discards the fraction (rounds toward
zero): `Int.tdiv _ 128`. -/
def readTemp (w : World) : Int × World :=
  let temperature : Int := 0
  let w1 : World := { w with transfers := w.transfers + 1 }
  match w.sensor w.transfers with
  | Transfer.ok rx0 rx1 =>
    let temperature : Int := toInt16 (((rx0.val <<< 8) ||| rx1.val : Nat) : Int)
    let temperature : Int := toInt16 (Int.tdiv temperature 128)
    let temperature : Int :=
      if rx0.val &&& 0x80 ≠ 0 then orF000 temperature else temperature
    (temperature, w1)
  | Transfer.failed status =>
    (temperature,
      { w1 with uart := w1.uart ++ [Message.sensorError status, Message.powerCycle] })

/-- Task function `getAmbientTemperature`: from `TEMPERATURE_SENSOR_INIT` go to
`READ_TEMPERATURE`; in `READ_TEMPERATURE` store `readTemp()` into
`ambientTemperature`; any other state is returned as it is. -/
def getAmbientTemperature (state : Int) (w : World) : Int × World :=
  if state = TEMPERATURE_SENSOR_INIT then
    (READ_TEMPERATURE, w)
  else if state = READ_TEMPERATURE then
    let r := readTemp w
    (state, { r.2 with ambientTemperature := r.1 })
  else
    (state, w)

/-- Task function `setHeatMode`: when `seconds != 0` compare, write the LED, set the state
and display the report; in every case `seconds++`. -/
def setHeatMode (state : Int) (w : World) : Int × World :=
  let r : Int × World :=
    if w.seconds ≠ 0 then
      let r1 : Int × World :=
        if w.ambientTemperature < w.setPoint then
          (HEAT_ON, { w with led := w.led ++ [Level.LED_ON] })
        else
          (HEAT_OFF, { w with led := w.led ++ [Level.LED_OFF] })
      (r1.1, { r1.2 with
        uart := r1.2.uart ++
          [Message.report r1.2.ambientTemperature r1.2.setPoint r1.1 r1.2.seconds] })
    else
      (state, w)
  (r.1, { r.2 with seconds := toInt32 (r.2.seconds + 1) })

/-! ## Runs of the button task -/

/-- What can happen to the button task between two observations: one of the
two interrupts posts its event, or the scheduler fires the task. -/
inductive ButtonEvent where
  | postIncrease
  | postDecrease
  | fire
  deriving DecidableEq, Repr

/-- One event applied to the button task state and the world. -/
def buttonStep (s : Int × World) : ButtonEvent → Int × World
  | ButtonEvent.postIncrease => (s.1, gpioIncreaseTemperatureCallback s.2)
  | ButtonEvent.postDecrease => (s.1, gpioDecreaseTemperatureCallback s.2)
  | ButtonEvent.fire => adjustSetPointTemperature s.1 s.2

/-- A finite interleaving of posts and firings, applied left to right. -/
def buttonRun (evs : List ButtonEvent) (s : Int × World) : Int × World :=
  evs.foldl buttonStep s

/-! ## Runs of the heat-mode task -/

/-- One firing of the heat-mode task.  Between two of its firings the other
tasks may have changed `ambientTemperature` and `setPoint`; `env` gives the
values the firing finds in them. -/
def heatFire (s : Int × World) (env : Int × Int) : Int × World :=
  setHeatMode s.1 { s.2 with ambientTemperature := env.1, setPoint := env.2 }

/-- Successive firings of the heat-mode task, one for each element of `envs`. -/
def heatRun (envs : List (Int × Int)) (s : Int × World) : Int × World :=
  envs.foldl heatFire s

/-- The heat-mode task at start-up: state `HEAT_INIT` of the task table and
the globals of `startWorld`. -/
def heatStart (sensor : Nat → Transfer) : Int × World :=
  (HEAT_INIT, startWorld sensor)

/-- Number of status reports in a `DISPLAY` log. -/
def reportCount (log : List Message) : Nat :=
  (log.filter (fun m => match m with
    | Message.report _ _ _ _ => true
    | _ => false)).length

/-! ## The value the sensor sends -/

/-- The two-byte big-endian two's-complement value of a byte pair:
`hi * 256 + lo`, minus `65536` when `hi >= 0x80`. -/
def sensorValue (hi lo : Fin 256) : Int :=
  if hi.val ≥ 0x80 then (hi.val : Int) * 256 + lo.val - 65536
  else (hi.val : Int) * 256 + lo.val

/-! ## The scheduler -/

/-- Record `struct task`; its `tickFunction` reads and writes the globals. -/
structure task where
  /-- Field `int state`. -/
  state : Int
  /-- Field `unsigned long period`. -/
  period : Nat
  /-- Field `unsigned long elapsedTime`. -/
  elapsedTime : Nat
  /-- Field `int (*tickFunction)(int)`. -/
  tickFunction : Int → World → Int × World

/-- What `mainThread` holds inside its loop: the local array `tasks` and the
globals.  `calls` is an observation of the run, not a program variable: the
indices `i` for which `tasks[i].tickFunction` has been called, oldest first. -/
structure Sched where
  tasks : List task
  world : World
  calls : List Nat

/-- Body of the `for` loop at index `i`: the due check with the call and the
reset, then `tasks[i].elapsedTime += timerPeriod`. -/
def loopBody (i : Nat) (t : task) (w : World) (calls : List Nat) :
    task × World × List Nat :=
  let r : task × World × List Nat :=
    if t.elapsedTime ≥ t.period then
      let r1 := t.tickFunction t.state w
      ({ t with state := r1.1, elapsedTime := 0 }, r1.2, calls ++ [i])
    else
      (t, w, calls)
  ({ r.1 with elapsedTime := toULong (r.1.elapsedTime + timerPeriod) }, r.2.1, r.2.2)

/-- The `for` loop from index `i` on, over the tasks not yet visited. -/
def forLoop (i : Nat) : List task → World → List Nat → List task × World × List Nat
  | [], w, calls => ([], w, calls)
  | t :: ts, w, calls =>
    let r := loopBody i t w calls
    let rs := forLoop (i + 1) ts r.2.1 r.2.2
    (r.1 :: rs.1, rs.2.1, rs.2.2)

/-- One iteration of `while (1)`: the `for` loop over the whole table.  The
busy wait on `TimerFlag` that ends the iteration changes none of this. -/
def iteration (s : Sched) : Sched :=
  let r := forLoop 0 s.tasks s.world s.calls
  { tasks := r.1, world := r.2.1, calls := r.2.2 }

/-- The first `n` iterations of `while (1)`.  `irq k` is what the interrupt
callbacks do to the globals while iteration `k` waits for the timer. -/
def mainLoop (irq : Nat → World → World) : Nat → Sched → Sched
  | 0, s => s
  | n + 1, s =>
    let s1 := iteration (mainLoop irq n s)
    { s1 with world := irq n s1.world }

/-- The initialiser of `task tasks[numTasks]` in `mainThread`. -/
def tasks : List task :=
  [ { state := BUTTON_INIT
      period := checkButtonPeriod
      elapsedTime := checkButtonPeriod
      tickFunction := adjustSetPointTemperature },
    { state := TEMPERATURE_SENSOR_INIT
      period := checkTemperaturePeriod
      elapsedTime := checkTemperaturePeriod
      tickFunction := getAmbientTemperature },
    { state := HEAT_INIT
      period := updateHeatModeAndServerPeriod
      elapsedTime := updateHeatModeAndServerPeriod
      tickFunction := setHeatMode } ]

/-- State of `mainThread` at the entry of its loop. -/
def startSched (sensor : Nat → Transfer) : Sched :=
  { tasks := tasks, world := startWorld sensor, calls := [] }

/-- No button is pressed while the loop waits. -/
def noIrq : Nat → World → World := fun _ w => w

/-! ## The two halves of the loop body and the two-phase pass of the specification -/

/-- First statement of the loop body at index `i`: the `if` with the call of
`tickFunction` and the reset of `elapsedTime`. -/
def dueCheck (i : Nat) (t : task) (w : World) (calls : List Nat) :
    task × World × List Nat :=
  if t.elapsedTime ≥ t.period then
    let r1 := t.tickFunction t.state w
    ({ t with state := r1.1, elapsedTime := 0 }, r1.2, calls ++ [i])
  else
    (t, w, calls)

/-- Second statement of the loop body: `tasks[i].elapsedTime += timerPeriod`. -/
def addTick (t : task) : task :=
  { t with elapsedTime := toULong (t.elapsedTime + timerPeriod) }

/-- First phase of the pass as the specification words it: the due check, with
the step and the reset, for each task in table order, from index `i` on. -/
def specDueChecks (i : Nat) : List task → World → List Nat → List task × World × List Nat
  | [], w, calls => ([], w, calls)
  | t :: ts, w, calls =>
    let r := dueCheck i t w calls
    let rs := specDueChecks (i + 1) ts r.2.1 r.2.2
    (r.1 :: rs.1, rs.2.1, rs.2.2)

/-- The pass as the specification words it: first the due checks for all
tasks, and only afterwards one base tick added to every task's elapsed time. -/
def specPass (s : Sched) : Sched :=
  let r := specDueChecks 0 s.tasks s.world s.calls
  { tasks := r.1.map addTick, world := r.2.1, calls := r.2.2 }

/-! ## Observations on runs of the scheduler -/

/-- The task at index `i` is called in iteration `n + 1` of the run from `s`. -/
def firesIn (irq : Nat → World → World) (s : Sched) (i n : Nat) : Prop :=
  (mainLoop irq (n + 1) s).calls.count i = (mainLoop irq n s).calls.count i + 1

/-- The interrupts of the program are the two button callbacks, which write
`BUTTON_STATE` and nothing else. -/
def buttonOnly (irq : Nat → World → World) : Prop :=
  ∀ (n : Nat) (w : World), ∃ b : Int, irq n w = { w with BUTTON_STATE := b }

/-! ## The echo command recogniser (`uart2echo.c`)

The second program of the repository: `mainThread` of
`Hardware-Software-Interface-Implementation/uart2echo.c` reads one character
at a time and drives the same LED.  Its state is the local
`unsigned char state`; `UART2_read` is the input of each loop iteration, and
`GPIO_write` and `UART2_write` append to two logs. -/

namespace Uart2Echo

/-- First enumerator of `State`: waiting for the first character. -/
def STATE_IDLE : Nat := 0

/-- Second enumerator of `State`: received the letter O. -/
def STATE_O : Nat := 1

/-- Third enumerator of `State`; the loop never assigns it. -/
def STATE_ON : Nat := 2

/-- Fourth enumerator of `State`: received the letter F after O. -/
def STATE_F : Nat := 3

/-- Fifth enumerator of `State`; the loop never assigns it. -/
def STATE_OFF : Nat := 4

/-- Result of `UART2_read(uart, &input, 1, &bytesRead)`: the character read,
or a status other than `UART2_STATUS_SUCCESS`. -/
inductive Read where
  | ok (input : Fin 256)
  | failed (status : Nat)
  deriving DecidableEq, Repr

/-- The two texts the loop writes with `UART2_write`. -/
inductive Text where
  /-- The 8 bytes `"LED ON\r\n"`. -/
  | LED_ON_TEXT
  /-- The 9 bytes `"LED OFF\r\n"`. -/
  | LED_OFF_TEXT
  deriving DecidableEq, Repr

/-- What `mainThread` holds inside its loop: the local `state`, the levels
written to the LED pin and the texts written to the UART, oldest first, and
whether the thread has stopped in the `while (1) {}` that follows a failed read. -/
structure Machine where
  state : Nat
  led : List Level
  uart : List Text
  halted : Bool
  deriving DecidableEq, Repr

/-- The thread at the entry of its loop: `state = STATE_IDLE`, nothing written
yet by the loop. -/
def start : Machine :=
  { state := STATE_IDLE, led := [], uart := [], halted := false }

/-- The `switch (state)` of the loop on the character `input`. -/
def switchState (m : Machine) (input : Fin 256) : Machine :=
  if m.state = STATE_IDLE then
    if input.val = 'O'.toNat then { m with state := STATE_O }
    else { m with state := STATE_IDLE }
  else if m.state = STATE_O then
    if input.val = 'N'.toNat then
      { m with led := m.led ++ [Level.LED_ON], uart := m.uart ++ [Text.LED_ON_TEXT],
               state := STATE_IDLE }
    else if input.val = 'F'.toNat then { m with state := STATE_F }
    else { m with state := STATE_IDLE }
  else if m.state = STATE_F then
    if input.val = 'F'.toNat then
      { m with led := m.led ++ [Level.LED_OFF], uart := m.uart ++ [Text.LED_OFF_TEXT],
               state := STATE_IDLE }
    else { m with state := STATE_IDLE }
  else { m with state := STATE_IDLE }

/-- One iteration of `while (1)`: the read, the stop on a failed read, the
`switch`.  A stopped thread stays as it is. -/
def loopBody (m : Machine) (r : Read) : Machine :=
  if m.halted then m
  else
    match r with
    | Read.failed _ => { m with halted := true }
    | Read.ok input => switchState m input

/-- The loop of `mainThread` over the successive results of `UART2_read`. -/
def mainThread (reads : List Read) (m : Machine) : Machine :=
  reads.foldl loopBody m

/-- The reads of a typed character sequence: every read succeeds. -/
def typed (cs : List (Fin 256)) : List Read :=
  cs.map Read.ok

/-- The byte of a character constant of the source. -/
def byte (c : Char) (h : c.toNat < 256) : Fin 256 := ⟨c.toNat, h⟩

end Uart2Echo

/-! ## Lemmas on the button task -/

theorem toInt16_of_range (x : Int) (h1 : -32768 ≤ x) (h2 : x ≤ 32767) : toInt16 x = x := by
  unfold toInt16; omega

theorem adjust_setPoint (state : Int) (w : World) :
    (adjustSetPointTemperature state w).2.setPoint =
      if state = INCREASE_TEMPERATURE then
        (if w.setPoint < 99 then toInt16 (w.setPoint + 1) else w.setPoint)
      else if state = DECREASE_TEMPERATURE then
        (if w.setPoint > 0 then toInt16 (w.setPoint - 1) else w.setPoint)
      else w.setPoint := by
  unfold adjustSetPointTemperature
  split_ifs <;> rfl

theorem adjust_BUTTON_STATE (state : Int) (w : World) :
    (adjustSetPointTemperature state w).2.BUTTON_STATE =
      if state = INCREASE_TEMPERATURE then BUTTON_INIT
      else if state = DECREASE_TEMPERATURE then BUTTON_INIT
      else w.BUTTON_STATE := by
  unfold adjustSetPointTemperature
  split_ifs <;> rfl

theorem adjust_state (state : Int) (w : World) :
    (adjustSetPointTemperature state w).1 =
      (adjustSetPointTemperature state w).2.BUTTON_STATE := rfl

theorem adjust_setPoint_range (state : Int) (w : World)
    (h : 0 ≤ w.setPoint ∧ w.setPoint ≤ 99) :
    0 ≤ (adjustSetPointTemperature state w).2.setPoint ∧
      (adjustSetPointTemperature state w).2.setPoint ≤ 99 := by
  rw [adjust_setPoint]
  unfold toInt16
  split_ifs <;> omega

theorem buttonStep_setPoint_range (s : Int × World) (e : ButtonEvent)
    (h : 0 ≤ s.2.setPoint ∧ s.2.setPoint ≤ 99) :
    0 ≤ (buttonStep s e).2.setPoint ∧ (buttonStep s e).2.setPoint ≤ 99 := by
  cases e with
  | postIncrease => exact h
  | postDecrease => exact h
  | fire => exact adjust_setPoint_range s.1 s.2 h

theorem buttonRun_setPoint_range (evs : List ButtonEvent) :
    ∀ s : Int × World, (0 ≤ s.2.setPoint ∧ s.2.setPoint ≤ 99) →
      0 ≤ (buttonRun evs s).2.setPoint ∧ (buttonRun evs s).2.setPoint ≤ 99 := by
  induction evs with
  | nil => intro s h; exact h
  | cons e es ih =>
    intro s h
    exact ih (buttonStep s e) (buttonStep_setPoint_range s e h)

theorem adjust_idle (w : World) :
    adjustSetPointTemperature BUTTON_INIT w = (w.BUTTON_STATE, w) := by
  simp [adjustSetPointTemperature, BUTTON_INIT, INCREASE_TEMPERATURE, DECREASE_TEMPERATURE]

theorem buttonRun_cons (e : ButtonEvent) (es : List ButtonEvent) (s : Int × World) :
    buttonRun (e :: es) s = buttonRun es (buttonStep s e) := rfl

theorem buttonRun_fire_idle (n : Nat) (w : World) (h : w.BUTTON_STATE = BUTTON_INIT) :
    buttonRun (List.replicate n ButtonEvent.fire) (BUTTON_INIT, w) = (BUTTON_INIT, w) := by
  induction n with
  | zero => rfl
  | succ k ih =>
    rw [List.replicate_succ, buttonRun_cons]
    have hs : buttonStep (BUTTON_INIT, w) ButtonEvent.fire = (BUTTON_INIT, w) := by
      show adjustSetPointTemperature BUTTON_INIT w = (BUTTON_INIT, w)
      rw [adjust_idle, h]
    rw [hs, ih]

/-! ## Lemmas on the sensor task -/

theorem readTemp_failed (w : World) (status : Int)
    (h : w.sensor w.transfers = Transfer.failed status) :
    readTemp w = (0, { w with
      transfers := w.transfers + 1
      uart := w.uart ++ [Message.sensorError status, Message.powerCycle] }) := by
  simp [readTemp, h]

/-! ## Lemmas on the heat-mode task -/

theorem toInt32_of_range (x : Int) (h1 : -2147483648 ≤ x) (h2 : x ≤ 2147483647) :
    toInt32 x = x := by
  unfold toInt32; omega

theorem toInt32_succ (x : Int) : toInt32 (toInt32 x + 1) = toInt32 (x + 1) := by
  unfold toInt32; omega

theorem setHeatMode_seconds (state : Int) (w : World) :
    (setHeatMode state w).2.seconds = toInt32 (w.seconds + 1) := by
  unfold setHeatMode
  split_ifs <;> rfl

theorem setHeatMode_first (state : Int) (w : World) (h : w.seconds = 0) :
    setHeatMode state w = (state, { w with seconds := toInt32 (w.seconds + 1) }) := by
  simp [setHeatMode, h]

theorem setHeatMode_on (state : Int) (w : World) (h : w.seconds ≠ 0)
    (hlt : w.ambientTemperature < w.setPoint) :
    setHeatMode state w = (HEAT_ON, { w with
      led := w.led ++ [Level.LED_ON]
      uart := w.uart ++ [Message.report w.ambientTemperature w.setPoint HEAT_ON w.seconds]
      seconds := toInt32 (w.seconds + 1) }) := by
  simp [setHeatMode, h, hlt]

theorem setHeatMode_off (state : Int) (w : World) (h : w.seconds ≠ 0)
    (hge : ¬ w.ambientTemperature < w.setPoint) :
    setHeatMode state w = (HEAT_OFF, { w with
      led := w.led ++ [Level.LED_OFF]
      uart := w.uart ++ [Message.report w.ambientTemperature w.setPoint HEAT_OFF w.seconds]
      seconds := toInt32 (w.seconds + 1) }) := by
  simp [setHeatMode, h, hge]

theorem heatRun_snoc (envs : List (Int × Int)) (env : Int × Int) (s : Int × World) :
    heatRun (envs ++ [env]) s = heatFire (heatRun envs s) env := by
  simp [heatRun, List.foldl_append]

theorem heatRun_seconds (envs : List (Int × Int)) (s : Int × World) (h0 : s.2.seconds = 0) :
    (heatRun envs s).2.seconds = toInt32 envs.length := by
  induction envs using List.reverseRecOn with
  | nil =>
    show s.2.seconds = toInt32 0
    rw [h0]; rfl
  | append_singleton es e ih =>
    rw [heatRun_snoc]
    show (setHeatMode _ _).2.seconds = _
    rw [setHeatMode_seconds]
    show toInt32 ((heatRun es s).2.seconds + 1) = _
    rw [ih, toInt32_succ]
    simp only [List.length_append, List.length_singleton, Nat.cast_add, Nat.cast_one]

theorem heatRun_seconds_small (envs : List (Int × Int)) (s : Int × World)
    (h0 : s.2.seconds = 0) (h : envs.length < 2147483648) :
    (heatRun envs s).2.seconds = envs.length := by
  rw [heatRun_seconds envs s h0]
  exact toInt32_of_range _ (by omega) (by omega)

theorem heatRun_seconds_ne_zero (envs : List (Int × Int)) (s : Int × World)
    (h0 : s.2.seconds = 0) (h : envs.length < 2147483648) (hne : envs ≠ []) :
    (heatRun envs s).2.seconds ≠ 0 := by
  rw [heatRun_seconds_small envs s h0 h]
  have : 0 < envs.length := List.length_pos.mpr hne
  omega

/-! ## Lemmas on the scheduler -/

theorem loopBody_period (i : Nat) (t : task) (w : World) (c : List Nat) :
    (loopBody i t w c).1.period = t.period := by
  unfold loopBody
  split_ifs <;> rfl

theorem loopBody_elapsedTime (i : Nat) (t : task) (w : World) (c : List Nat) :
    (loopBody i t w c).1.elapsedTime
      = toULong ((if t.elapsedTime ≥ t.period then 0 else t.elapsedTime) + timerPeriod) := by
  unfold loopBody
  split_ifs <;> rfl

theorem loopBody_calls (i : Nat) (t : task) (w : World) (c : List Nat) :
    (loopBody i t w c).2.2 = if t.elapsedTime ≥ t.period then c ++ [i] else c := by
  unfold loopBody
  split_ifs <;> rfl

theorem forLoop_cons (i : Nat) (t : task) (ts : List task) (w : World) (c : List Nat) :
    forLoop i (t :: ts) w c
      = ((loopBody i t w c).1 ::
          (forLoop (i + 1) ts (loopBody i t w c).2.1 (loopBody i t w c).2.2).1,
        (forLoop (i + 1) ts (loopBody i t w c).2.1 (loopBody i t w c).2.2).2.1,
        (forLoop (i + 1) ts (loopBody i t w c).2.1 (loopBody i t w c).2.2).2.2) := rfl

/-- The pass leaves every period alone and updates every elapsedTime from the
task's own fields only. -/
theorem forLoop_task (ts : List task) :
    ∀ (i : Nat) (w : World) (c : List Nat) (j : Nat) (t : task), ts[j]? = some t →
      ∃ t1 : task, (forLoop i ts w c).1[j]? = some t1 ∧ t1.period = t.period ∧
        t1.elapsedTime
          = toULong ((if t.elapsedTime ≥ t.period then 0 else t.elapsedTime) + timerPeriod) := by
  induction ts with
  | nil => intro i w c j t h; simp at h
  | cons hd tl ih =>
    intro i w c j t h
    rw [forLoop_cons]
    cases j with
    | zero =>
      simp only [List.getElem?_cons_zero, Option.some.injEq] at h
      subst h
      exact ⟨(loopBody i hd w c).1, by simp, loopBody_period i hd w c,
        loopBody_elapsedTime i hd w c⟩
    | succ m =>
      simp only [List.getElem?_cons_succ] at h
      obtain ⟨t1, h1, h2, h3⟩ := ih (i + 1) (loopBody i hd w c).2.1 (loopBody i hd w c).2.2 m t h
      exact ⟨t1, by simpa using h1, h2, h3⟩

/-- Indices below the first index of the pass are not called in it. -/
theorem forLoop_count_below (ts : List task) :
    ∀ (i : Nat) (w : World) (c : List Nat) (x : Nat), x < i →
      (forLoop i ts w c).2.2.count x = c.count x := by
  induction ts with
  | nil => intro i w c x _; rfl
  | cons hd tl ih =>
    intro i w c x hx
    rw [forLoop_cons]
    show (forLoop (i + 1) tl (loopBody i hd w c).2.1 (loopBody i hd w c).2.2).2.2.count x = _
    rw [ih (i + 1) _ _ x (by omega), loopBody_calls]
    split_ifs
    · rw [List.count_append]
      have : List.count x [i] = 0 := by
        simp [List.count_singleton]; omega
      omega
    · rfl

/-- The pass calls the task at index `i + j` once when it is due and not otherwise. -/
theorem forLoop_count (ts : List task) :
    ∀ (i : Nat) (w : World) (c : List Nat) (j : Nat) (t : task), ts[j]? = some t →
      (forLoop i ts w c).2.2.count (i + j)
        = c.count (i + j) + (if t.elapsedTime ≥ t.period then 1 else 0) := by
  induction ts with
  | nil => intro i w c j t h; simp at h
  | cons hd tl ih =>
    intro i w c j t h
    rw [forLoop_cons]
    show (forLoop (i + 1) tl (loopBody i hd w c).2.1 (loopBody i hd w c).2.2).2.2.count (i + j)
      = _
    cases j with
    | zero =>
      simp only [List.getElem?_cons_zero, Option.some.injEq] at h
      subst h
      rw [forLoop_count_below tl (i + 1) _ _ (i + 0) (by omega), loopBody_calls]
      split_ifs
      · rw [List.count_append]
        simp
      · rfl
    | succ m =>
      simp only [List.getElem?_cons_succ] at h
      have e : i + (m + 1) = (i + 1) + m := by omega
      rw [e, ih (i + 1) _ _ m t h, loopBody_calls]
      split_ifs with h1 h2 h2
      · rw [List.count_append]
        have : List.count (i + 1 + m) [i] = 0 := by
          simp [List.count_singleton]; omega
        omega
      · rw [List.count_append]
        have : List.count (i + 1 + m) [i] = 0 := by
          simp [List.count_singleton]; omega
        omega
      · rfl
      · rfl

theorem iteration_task (s : Sched) (i : Nat) (t : task) (h : s.tasks[i]? = some t) :
    ∃ t1 : task, (iteration s).tasks[i]? = some t1 ∧ t1.period = t.period ∧
      t1.elapsedTime
        = toULong ((if t.elapsedTime ≥ t.period then 0 else t.elapsedTime) + timerPeriod) :=
  forLoop_task s.tasks 0 s.world s.calls i t h

theorem iteration_count (s : Sched) (i : Nat) (t : task) (h : s.tasks[i]? = some t) :
    (iteration s).calls.count i
      = s.calls.count i + (if t.elapsedTime ≥ t.period then 1 else 0) := by
  have := forLoop_count s.tasks 0 s.world s.calls i t h
  simpa [iteration] using this

theorem mainLoop_succ_tasks (irq : Nat → World → World) (n : Nat) (s : Sched) :
    (mainLoop irq (n + 1) s).tasks = (iteration (mainLoop irq n s)).tasks := rfl

theorem mainLoop_succ_calls (irq : Nat → World → World) (n : Nat) (s : Sched) :
    (mainLoop irq (n + 1) s).calls = (iteration (mainLoop irq n s)).calls := rfl

/-- Timing of one task along the run.  With period `k * timerPeriod` and
elapsedTime started at the period, after `M` iterations write
`M + k - 1 = q * k + r` with `r < k`: the task has been called `q` times and
its elapsedTime is `timerPeriod * (r + 1)`. -/
theorem mainLoop_timing (irq : Nat → World → World) (s : Sched) (i : Nat) (t : task)
    (k : Nat) (hk : 0 < k) (hP : k * timerPeriod < 4294967296)
    (ht : s.tasks[i]? = some t) (hp : t.period = k * timerPeriod)
    (he : t.elapsedTime = k * timerPeriod) (M : Nat) :
    ∃ (t1 : task) (q r : Nat), (mainLoop irq M s).tasks[i]? = some t1 ∧
      t1.period = k * timerPeriod ∧ r < k ∧ M + k = q * k + r + 1 ∧
      t1.elapsedTime = timerPeriod * (r + 1) ∧
      (mainLoop irq M s).calls.count i = s.calls.count i + q := by
  induction M with
  | zero =>
    refine ⟨t, 0, k - 1, ht, hp, by omega, by omega, ?_, rfl⟩
    rw [he]
    unfold timerPeriod
    omega
  | succ n ih =>
    obtain ⟨t1, q, r, h1, h2, h3, h4, h5, h6⟩ := ih
    obtain ⟨t2, g1, g2, g3⟩ := iteration_task (mainLoop irq n s) i t1 h1
    have gc := iteration_count (mainLoop irq n s) i t1 h1
    rw [h2, h5] at g3
    rw [h2, h5, h6] at gc
    rw [h2] at g2
    rw [mainLoop_succ_tasks, mainLoop_succ_calls, gc]
    unfold timerPeriod at g3 hP h5 ⊢
    unfold toULong at g3
    by_cases hr : r + 1 = k
    · have hdue : 100 * (r + 1) ≥ k * 100 := by omega
      have hq : (q + 1) * k = q * k + k := by ring
      refine ⟨t2, q + 1, 0, g1, g2, hk, by omega, ?_, ?_⟩
      · rw [g3, if_pos hdue]
      · rw [if_pos hdue]; omega
    · have hdue : ¬ 100 * (r + 1) ≥ k * 100 := by omega
      refine ⟨t2, q, r + 1, g1, g2, by omega, by omega, ?_, ?_⟩
      · rw [g3, if_neg hdue]; omega
      · rw [if_neg hdue]; omega

theorem dueCheck_elapsedTime (i : Nat) (t : task) (w : World) (c : List Nat) :
    (dueCheck i t w c).1.elapsedTime
      = if t.elapsedTime ≥ t.period then 0 else t.elapsedTime := by
  unfold dueCheck
  split_ifs <;> rfl

theorem loopBody_eq (i : Nat) (t : task) (w : World) (c : List Nat) :
    loopBody i t w c
      = (addTick (dueCheck i t w c).1, (dueCheck i t w c).2.1, (dueCheck i t w c).2.2) := rfl

theorem forLoop_eq_spec (ts : List task) :
    ∀ (i : Nat) (w : World) (c : List Nat),
      forLoop i ts w c
        = ((specDueChecks i ts w c).1.map addTick, (specDueChecks i ts w c).2.1,
            (specDueChecks i ts w c).2.2) := by
  induction ts with
  | nil => intro i w c; rfl
  | cons hd tl ih =>
    intro i w c
    rw [forLoop_cons, loopBody_eq, ih]
    rfl

/-- With any start of elapsedTime at a multiple `j * timerPeriod` of the base
tick not above the period `k * timerPeriod`, elapsedTime stays such a multiple. -/
theorem mainLoop_grid (irq : Nat → World → World) (s : Sched) (i : Nat) (t : task)
    (k j : Nat) (hk : 0 < k) (hP : k * timerPeriod < 4294967296)
    (ht : s.tasks[i]? = some t) (hp : t.period = k * timerPeriod)
    (he : t.elapsedTime = j * timerPeriod) (hj : j ≤ k) (N : Nat) :
    ∃ (t1 : task) (j1 : Nat), (mainLoop irq N s).tasks[i]? = some t1 ∧
      t1.period = k * timerPeriod ∧ j1 ≤ k ∧ t1.elapsedTime = j1 * timerPeriod := by
  induction N with
  | zero => exact ⟨t, j, ht, hp, hj, he⟩
  | succ n ih =>
    obtain ⟨t1, j1, h1, h2, h3, h4⟩ := ih
    obtain ⟨t2, g1, g2, g3⟩ := iteration_task (mainLoop irq n s) i t1 h1
    rw [h2, h4] at g3
    rw [h2] at g2
    rw [mainLoop_succ_tasks]
    unfold timerPeriod at g3 hP ⊢
    unfold toULong at g3
    by_cases hd : j1 * 100 ≥ k * 100
    · rw [if_pos hd] at g3
      exact ⟨t2, 1, g1, g2, by omega, by omega⟩
    · rw [if_neg hd] at g3
      exact ⟨t2, j1 + 1, g1, g2, by omega, by omega⟩

theorem heatFire_state_later (e0 : Int × Int) (envs : List (Int × Int)) (env : Int × Int)
    (s : Int × World) (h0 : s.2.seconds = 0) (h : (e0 :: envs).length < 2147483648) :
    (heatFire (heatRun (e0 :: envs) s) env).1
      = (if env.1 < env.2 then HEAT_ON else HEAT_OFF) := by
  have hs := heatRun_seconds_ne_zero (e0 :: envs) s h0 h (List.cons_ne_nil e0 envs)
  generalize heatRun (e0 :: envs) s = b at hs ⊢
  have hs2 : ({ b.2 with ambientTemperature := env.1, setPoint := env.2 } : World).seconds
      ≠ 0 := hs
  unfold heatFire
  by_cases hlt : env.1 < env.2
  · rw [setHeatMode_on _ _ hs2 hlt, if_pos hlt]
  · rw [setHeatMode_off _ _ hs2 hlt, if_neg hlt]

theorem heatFire_report_later (e0 : Int × Int) (envs : List (Int × Int)) (env : Int × Int)
    (s : Int × World) (h0 : s.2.seconds = 0) (h : (e0 :: envs).length < 2147483648) :
    ∃ a p t : Int, (heatFire (heatRun (e0 :: envs) s) env).2.uart
      = (heatRun (e0 :: envs) s).2.uart ++ [Message.report a p t (e0 :: envs).length] := by
  have hs := heatRun_seconds_ne_zero (e0 :: envs) s h0 h (List.cons_ne_nil e0 envs)
  have hv := heatRun_seconds_small (e0 :: envs) s h0 h
  generalize heatRun (e0 :: envs) s = b at hs hv ⊢
  have hs2 : ({ b.2 with ambientTemperature := env.1, setPoint := env.2 } : World).seconds
      ≠ 0 := hs
  unfold heatFire
  by_cases hlt : env.1 < env.2
  · rw [setHeatMode_on _ _ hs2 hlt]
    refine ⟨env.1, env.2, HEAT_ON, ?_⟩
    show b.2.uart ++ [Message.report env.1 env.2 HEAT_ON b.2.seconds] = _
    rw [hv]
  · rw [setHeatMode_off _ _ hs2 hlt]
    refine ⟨env.1, env.2, HEAT_OFF, ?_⟩
    show b.2.uart ++ [Message.report env.1 env.2 HEAT_OFF b.2.seconds] = _
    rw [hv]

theorem heatFire_seconds (s : Int × World) (env : Int × Int) :
    (heatFire s env).2.seconds = toInt32 (s.2.seconds + 1) := by
  unfold heatFire
  rw [setHeatMode_seconds]

/-- A task started at its period `k * timerPeriod` is called in iteration
`n + 1` exactly when `k` divides `n`. -/
theorem firesIn_iff_dvd (irq : Nat → World → World) (s : Sched) (i : Nat) (t : task)
    (k : Nat) (hk : 0 < k) (hP : k * timerPeriod < 4294967296)
    (ht : s.tasks[i]? = some t) (hp : t.period = k * timerPeriod)
    (he : t.elapsedTime = k * timerPeriod) (n : Nat) :
    (firesIn irq s i n ↔ k ∣ n) ∧
    (¬ k ∣ n → (mainLoop irq (n + 1) s).calls.count i = (mainLoop irq n s).calls.count i) := by
  obtain ⟨t1, q, r, h1, h2, h3, h4, h5, _⟩ := mainLoop_timing irq s i t k hk hP ht hp he n
  have gc := iteration_count (mainLoop irq n s) i t1 h1
  rw [h2, h5] at gc
  unfold timerPeriod at gc
  have hdvd : k ∣ n ↔ r + 1 = k := by
    constructor
    · intro hd
      have h6 : k ∣ q * k + (r + 1) := by
        have : q * k + (r + 1) = n + k := by omega
        rw [this]
        exact Nat.dvd_add hd (Nat.dvd_refl k)
      have h7 : k ∣ r + 1 := (Nat.dvd_add_right (Nat.dvd_mul_left k q)).mp h6
      have h8 : k ≤ r + 1 := Nat.le_of_dvd (by omega) h7
      omega
    · intro hr
      have hn : n = q * k := by omega
      rw [hn]
      exact Nat.dvd_mul_left k q
  unfold firesIn
  rw [mainLoop_succ_calls, gc, hdvd]
  by_cases hr : r + 1 = k
  · have hd : 100 * (r + 1) ≥ k * 100 := by omega
    rw [if_pos hd]
    exact ⟨⟨fun _ => hr, fun _ => rfl⟩, fun h => absurd hr h⟩
  · have hd : ¬ 100 * (r + 1) ≥ k * 100 := by omega
    rw [if_neg hd]
    exact ⟨⟨fun h => by omega, fun h => absurd h hr⟩, fun _ => rfl⟩

/-! ## Lemmas on the decode -/

theorem shift_or_bytes (hi lo : Fin 256) :
    (hi.val <<< 8 ||| lo.val) = hi.val * 256 + lo.val := by
  have h := Nat.mul_add_lt_is_or (show lo.val < 2 ^ 8 from lo.isLt) hi.val
  rw [Nat.shiftLeft_eq, Nat.mul_comm hi.val (2 ^ 8), ← h]

set_option maxRecDepth 100000 in
theorem top_bit_iff (hi : Fin 256) : (hi.val &&& 0x80 ≠ 0) ↔ hi.val ≥ 0x80 := by
  revert hi
  decide

set_option maxRecDepth 100000 in
theorem orF000_negative_byte (x : Fin 256) :
    orF000 (-(x.val : Int) - 1) = -(x.val : Int) - 1 := by
  revert x
  decide

theorem toInt16_bytes (hi lo : Fin 256) :
    toInt16 ((hi.val * 256 + lo.val : Nat) : Int) = sensorValue hi lo := by
  have h1 := hi.isLt
  have h2 := lo.isLt
  unfold toInt16 sensorValue
  push_cast
  split_ifs <;> omega

theorem tdiv_128 (s : Int) :
    Int.tdiv s 128 = if 0 ≤ s then s / 128 else -((-s) / 128) := by
  split_ifs with h
  · exact Int.tdiv_eq_ediv h (by decide)
  · have h1 : Int.tdiv (-s) 128 = (-s) / 128 := Int.tdiv_eq_ediv (by omega) (by decide)
    have h2 : Int.tdiv (-(-s)) 128 = -(Int.tdiv (-s) 128) := Int.neg_tdiv (-s) 128
    rw [neg_neg] at h2
    rw [h2, h1]

theorem sensorValue_range (hi lo : Fin 256) :
    -32768 ≤ sensorValue hi lo ∧ sensorValue hi lo ≤ 32767 ∧
    (hi.val ≥ 0x80 ↔ sensorValue hi lo < 0) := by
  have h1 := hi.isLt
  have h2 := lo.isLt
  unfold sensorValue
  split_ifs <;> omega

theorem readTemp_ok (w : World) (hi lo : Fin 256)
    (hs : w.sensor w.transfers = Transfer.ok hi lo) :
    (readTemp w).1
      = if hi.val &&& 0x80 ≠ 0 then
          orF000 (toInt16 (Int.tdiv (sensorValue hi lo) 128))
        else toInt16 (Int.tdiv (sensorValue hi lo) 128) := by
  simp only [readTemp, hs]
  rw [shift_or_bytes, toInt16_bytes]

/-! ## Lemmas on the task table of `mainThread` -/

theorem loopBody_fire (i : Nat) (t : task) (w : World) (c : List Nat)
    (h : t.elapsedTime ≥ t.period) :
    loopBody i t w c
      = ({ t with state := (t.tickFunction t.state w).1,
                  elapsedTime := toULong (0 + timerPeriod) },
          (t.tickFunction t.state w).2, c ++ [i]) := by
  unfold loopBody
  rw [if_pos h]

theorem loopBody_skip (i : Nat) (t : task) (w : World) (c : List Nat)
    (h : ¬ t.elapsedTime ≥ t.period) :
    loopBody i t w c
      = ({ t with elapsedTime := toULong (t.elapsedTime + timerPeriod) }, w, c) := by
  unfold loopBody
  rw [if_neg h]

theorem loopBody_tickFunction (i : Nat) (t : task) (w : World) (c : List Nat) :
    (loopBody i t w c).1.tickFunction = t.tickFunction := by
  unfold loopBody
  split_ifs <;> rfl

theorem iteration_three (a b c : task) (w : World) (cl : List Nat) :
    iteration { tasks := [a, b, c], world := w, calls := cl }
      = { tasks :=
            [(loopBody 0 a w cl).1,
             (loopBody 1 b (loopBody 0 a w cl).2.1 (loopBody 0 a w cl).2.2).1,
             (loopBody 2 c
                (loopBody 1 b (loopBody 0 a w cl).2.1 (loopBody 0 a w cl).2.2).2.1
                (loopBody 1 b (loopBody 0 a w cl).2.1 (loopBody 0 a w cl).2.2).2.2).1],
          world :=
            (loopBody 2 c
                (loopBody 1 b (loopBody 0 a w cl).2.1 (loopBody 0 a w cl).2.2).2.1
                (loopBody 1 b (loopBody 0 a w cl).2.1 (loopBody 0 a w cl).2.2).2.2).2.1,
          calls :=
            (loopBody 2 c
                (loopBody 1 b (loopBody 0 a w cl).2.1 (loopBody 0 a w cl).2.2).2.1
                (loopBody 1 b (loopBody 0 a w cl).2.1 (loopBody 0 a w cl).2.2).2.2).2.2 } :=
  rfl

theorem adjust_frame (state : Int) (w : World) :
    (adjustSetPointTemperature state w).2.led = w.led ∧
    (adjustSetPointTemperature state w).2.uart = w.uart ∧
    (adjustSetPointTemperature state w).2.seconds = w.seconds ∧
    (adjustSetPointTemperature state w).2.transfers = w.transfers ∧
    (adjustSetPointTemperature state w).2.sensor = w.sensor := by
  unfold adjustSetPointTemperature
  split_ifs <;> exact ⟨rfl, rfl, rfl, rfl, rfl⟩

theorem readTemp_frame (w : World) :
    (readTemp w).2.led = w.led ∧
    reportCount (readTemp w).2.uart = reportCount w.uart ∧
    (readTemp w).2.seconds = w.seconds ∧
    (readTemp w).2.transfers = w.transfers + 1 ∧
    (readTemp w).2.sensor = w.sensor ∧
    (readTemp w).2.setPoint = w.setPoint := by
  unfold readTemp
  split
  · exact ⟨rfl, rfl, rfl, rfl, rfl, rfl⟩
  · refine ⟨rfl, ?_, rfl, rfl, rfl, rfl⟩
    simp [reportCount]

theorem readTemp_congr (w1 w : World) (h1 : w1.sensor = w.sensor)
    (h2 : w1.transfers = w.transfers) : (readTemp w1).1 = (readTemp w).1 := by
  unfold readTemp
  rw [h1, h2]
  split <;> rfl

theorem getAmbient_frame (state : Int) (w : World) :
    (getAmbientTemperature state w).2.led = w.led ∧
    reportCount (getAmbientTemperature state w).2.uart = reportCount w.uart ∧
    (getAmbientTemperature state w).2.seconds = w.seconds ∧
    (getAmbientTemperature state w).2.sensor = w.sensor ∧
    (getAmbientTemperature state w).2.setPoint = w.setPoint := by
  obtain ⟨r1, r2, r3, _, r5, r6⟩ := readTemp_frame w
  unfold getAmbientTemperature
  split_ifs
  · exact ⟨rfl, rfl, rfl, rfl, rfl⟩
  · exact ⟨r1, r2, r3, r5, r6⟩
  · exact ⟨rfl, rfl, rfl, rfl, rfl⟩

theorem getAmbient_read (w : World) :
    (getAmbientTemperature READ_TEMPERATURE w).1 = READ_TEMPERATURE ∧
    (getAmbientTemperature READ_TEMPERATURE w).2.transfers = w.transfers + 1 ∧
    (getAmbientTemperature READ_TEMPERATURE w).2.ambientTemperature = (readTemp w).1 := by
  have h := (readTemp_frame w).2.2.2.1
  simp [getAmbientTemperature, READ_TEMPERATURE, TEMPERATURE_SENSOR_INIT, h]

theorem getAmbient_init (w : World) :
    getAmbientTemperature TEMPERATURE_SENSOR_INIT w = (READ_TEMPERATURE, w) := by
  simp [getAmbientTemperature]

theorem setHeatMode_frame (state : Int) (w : World) :
    (setHeatMode state w).2.transfers = w.transfers ∧
    (setHeatMode state w).2.ambientTemperature = w.ambientTemperature ∧
    (setHeatMode state w).2.setPoint = w.setPoint ∧
    (setHeatMode state w).2.sensor = w.sensor := by
  unfold setHeatMode
  split_ifs <;> exact ⟨rfl, rfl, rfl, rfl⟩

theorem setHeatMode_led (state : Int) (w : World) :
    (setHeatMode state w).2.led
      = if w.seconds ≠ 0 then
          w.led ++ [if w.ambientTemperature < w.setPoint then Level.LED_ON
                    else Level.LED_OFF]
        else w.led := by
  unfold setHeatMode
  split_ifs <;> rfl

theorem loopBody_state (i : Nat) (t : task) (w : World) (c : List Nat) :
    (loopBody i t w c).1.state
      = if t.elapsedTime ≥ t.period then (t.tickFunction t.state w).1 else t.state := by
  unfold loopBody
  split_ifs <;> rfl

theorem loopBody_world (i : Nat) (t : task) (w : World) (c : List Nat) :
    (loopBody i t w c).2.1
      = if t.elapsedTime ≥ t.period then (t.tickFunction t.state w).2 else w := by
  unfold loopBody
  split_ifs <;> rfl

theorem sched_eta (s : Sched) :
    s = { tasks := s.tasks, world := s.world, calls := s.calls } := rfl

/-- The task table along any run from start-up: three tasks with their tick
functions and periods, elapsedTime a function of the number `n` of iterations
run, and the temperature task in READ_TEMPERATURE from the first iteration on. -/
theorem table_invariant (irq : Nat → World → World) (sensor : Nat → Transfer) (n : Nat) :
    ∃ a b c : task,
      (mainLoop irq n (startSched sensor)).tasks = [a, b, c] ∧
      (a.tickFunction = adjustSetPointTemperature ∧ a.period = 200 ∧
        a.elapsedTime = 100 * ((n + 1) % 2 + 1)) ∧
      (b.tickFunction = getAmbientTemperature ∧ b.period = 500 ∧
        b.elapsedTime = 100 * ((n + 4) % 5 + 1)) ∧
      (c.tickFunction = setHeatMode ∧ c.period = 1000 ∧
        c.elapsedTime = 100 * ((n + 9) % 10 + 1)) ∧
      (n = 0 → b.state = TEMPERATURE_SENSOR_INIT ∧ c.state = HEAT_INIT) ∧
      (1 ≤ n → b.state = READ_TEMPERATURE) := by
  induction n with
  | zero =>
    exact ⟨_, _, _, rfl, ⟨rfl, rfl, rfl⟩, ⟨rfl, rfl, rfl⟩, ⟨rfl, rfl, rfl⟩,
      fun _ => ⟨rfl, rfl⟩, fun h => absurd h (by decide)⟩
  | succ m ih =>
    obtain ⟨a, b, c, hts, ⟨ha1, ha2, ha3⟩, ⟨hb1, hb2, hb3⟩, ⟨hc1, hc2, hc3⟩, h0, h1⟩ := ih
    rw [mainLoop_succ_tasks, sched_eta (mainLoop irq m (startSched sensor)), hts,
      iteration_three]
    refine ⟨_, _, _, rfl, ⟨?_, ?_, ?_⟩, ⟨?_, ?_, ?_⟩, ⟨?_, ?_, ?_⟩, ?_, ?_⟩
    · rw [loopBody_tickFunction, ha1]
    · rw [loopBody_period, ha2]
    · rw [loopBody_elapsedTime, ha2, ha3]
      unfold toULong timerPeriod
      split_ifs <;> omega
    · rw [loopBody_tickFunction, hb1]
    · rw [loopBody_period, hb2]
    · rw [loopBody_elapsedTime, hb2, hb3]
      have e : (m + 1 + 4) % 5 = if (m + 4) % 5 = 4 then 0 else (m + 4) % 5 + 1 := by
        split_ifs <;> omega
      have hlt : (m + 4) % 5 < 5 := Nat.mod_lt _ (by decide)
      rw [e]
      unfold toULong timerPeriod
      split_ifs <;> omega
    · rw [loopBody_tickFunction, hc1]
    · rw [loopBody_period, hc2]
    · rw [loopBody_elapsedTime, hc2, hc3]
      have e : (m + 1 + 9) % 10 = if (m + 9) % 10 = 9 then 0 else (m + 9) % 10 + 1 := by
        split_ifs <;> omega
      have hlt : (m + 9) % 10 < 10 := Nat.mod_lt _ (by decide)
      rw [e]
      unfold toULong timerPeriod
      split_ifs <;> omega
    · intro h; omega
    · intro _
      rw [loopBody_state, hb1]
      rcases Nat.eq_zero_or_pos m with hm | hm
      · have hd : b.elapsedTime ≥ b.period := by rw [hb2, hb3, hm]
        rw [if_pos hd, (h0 hm).1, getAmbient_init]
      · rw [h1 hm]
        split_ifs
        · exact (getAmbient_read _).1
        · rfl

theorem button_pass_frame (i : Nat) (a : task) (w : World) (cl : List Nat)
    (ha : a.tickFunction = adjustSetPointTemperature) :
    (loopBody i a w cl).2.1.led = w.led ∧
    (loopBody i a w cl).2.1.uart = w.uart ∧
    (loopBody i a w cl).2.1.seconds = w.seconds ∧
    (loopBody i a w cl).2.1.transfers = w.transfers ∧
    (loopBody i a w cl).2.1.sensor = w.sensor := by
  rw [loopBody_world, ha]
  split_ifs
  · exact adjust_frame a.state w
  · exact ⟨rfl, rfl, rfl, rfl, rfl⟩

theorem temp_pass_frame (i : Nat) (b : task) (w : World) (cl : List Nat)
    (hb : b.tickFunction = getAmbientTemperature) :
    (loopBody i b w cl).2.1.led = w.led ∧
    reportCount (loopBody i b w cl).2.1.uart = reportCount w.uart ∧
    (loopBody i b w cl).2.1.seconds = w.seconds ∧
    (loopBody i b w cl).2.1.sensor = w.sensor ∧
    (loopBody i b w cl).2.1.setPoint = w.setPoint := by
  rw [loopBody_world, hb]
  split_ifs
  · exact getAmbient_frame b.state w
  · exact ⟨rfl, rfl, rfl, rfl, rfl⟩

theorem temp_pass_read (i : Nat) (b : task) (w : World) (cl : List Nat)
    (hb : b.tickFunction = getAmbientTemperature) (hs : b.state = READ_TEMPERATURE)
    (hd : b.elapsedTime ≥ b.period) :
    (loopBody i b w cl).2.1.transfers = w.transfers + 1 ∧
    (loopBody i b w cl).2.1.ambientTemperature = (readTemp w).1 := by
  rw [loopBody_world, hb, if_pos hd, hs]
  exact (getAmbient_read w).2

/-- An iteration of the run from start-up in which the heat-mode task is not
due leaves the LED log, the number of reports, `seconds` and the state of the
heat-mode task as they were. -/
theorem iteration_heat_idle (irq : Nat → World → World) (sensor : Nat → Transfer) (n : Nat)
    (hn : ¬ 10 ∣ n) :
    (iteration (mainLoop irq n (startSched sensor))).world.led
      = (mainLoop irq n (startSched sensor)).world.led ∧
    reportCount (iteration (mainLoop irq n (startSched sensor))).world.uart
      = reportCount (mainLoop irq n (startSched sensor)).world.uart ∧
    (iteration (mainLoop irq n (startSched sensor))).world.seconds
      = (mainLoop irq n (startSched sensor)).world.seconds ∧
    ((iteration (mainLoop irq n (startSched sensor))).tasks.map (fun t => t.state))[2]?
      = ((mainLoop irq n (startSched sensor)).tasks.map (fun t => t.state))[2]? := by
  obtain ⟨a, b, c, hts, ⟨ha1, _, _⟩, ⟨hb1, _, _⟩, ⟨_, hc2, hc3⟩, _, _⟩ :=
    table_invariant irq sensor n
  have hnd : ¬ c.elapsedTime ≥ c.period := by
    rw [hc2, hc3]; omega
  rw [sched_eta (mainLoop irq n (startSched sensor)), hts, iteration_three]
  simp only [loopBody_skip 2 c _ _ hnd]
  obtain ⟨f1, f2, f3, _, _⟩ := button_pass_frame 0 a
    (mainLoop irq n (startSched sensor)).world (mainLoop irq n (startSched sensor)).calls ha1
  obtain ⟨g1, g2, g3, _, _⟩ := temp_pass_frame 1 b
    (loopBody 0 a (mainLoop irq n (startSched sensor)).world
      (mainLoop irq n (startSched sensor)).calls).2.1
    (loopBody 0 a (mainLoop irq n (startSched sensor)).world
      (mainLoop irq n (startSched sensor)).calls).2.2 hb1
  refine ⟨?_, ?_, ?_, ?_⟩
  · rw [g1, f1]
  · rw [g2, f2]
  · rw [g3, f3]
  · simp

theorem mainLoop_succ_world (irq : Nat → World → World) (n : Nat) (s : Sched) :
    (mainLoop irq (n + 1) s).world = irq n (iteration (mainLoop irq n s)).world := rfl

theorem iteration_start (sensor : Nat → Transfer) :
    (iteration (startSched sensor)).world.led = [] ∧
    (iteration (startSched sensor)).world.uart = [] ∧
    (iteration (startSched sensor)).world.seconds = 1 ∧
    (iteration (startSched sensor)).calls = [0, 1, 2] :=
  ⟨rfl, rfl, rfl, rfl⟩

/-- With interrupts that only write `BUTTON_STATE`, during the first ten
iterations from start-up nothing is written to the LED, no report is displayed
and `seconds` is 1. -/
theorem first_period_quiet (irq : Nat → World → World) (hirq : buttonOnly irq)
    (sensor : Nat → Transfer) (n : Nat) (h1 : 1 ≤ n) (h10 : n ≤ 10) :
    (mainLoop irq n (startSched sensor)).world.led = [] ∧
    reportCount (mainLoop irq n (startSched sensor)).world.uart = 0 ∧
    (mainLoop irq n (startSched sensor)).world.seconds = 1 := by
  induction n with
  | zero => omega
  | succ m ih =>
    rw [mainLoop_succ_world]
    obtain ⟨bv, hbv⟩ := hirq m (iteration (mainLoop irq m (startSched sensor))).world
    rw [hbv]
    show (iteration (mainLoop irq m (startSched sensor))).world.led = [] ∧
      reportCount (iteration (mainLoop irq m (startSched sensor))).world.uart = 0 ∧
      (iteration (mainLoop irq m (startSched sensor))).world.seconds = 1
    rcases Nat.eq_zero_or_pos m with hm | hm
    · subst hm
      obtain ⟨e1, e2, e3, _⟩ := iteration_start sensor
      show (iteration (startSched sensor)).world.led = [] ∧
        reportCount (iteration (startSched sensor)).world.uart = 0 ∧
        (iteration (startSched sensor)).world.seconds = 1
      rw [e1, e2, e3]
      exact ⟨rfl, rfl, rfl⟩
    · obtain ⟨i1, i2, i3⟩ := ih hm (by omega)
      obtain ⟨j1, j2, j3, _⟩ := iteration_heat_idle irq sensor m (by omega)
      rw [j1, j2, j3]
      exact ⟨i1, i2, i3⟩

/-- An iteration of the run from start-up in which the heat-mode task is due,
other than the first: the three tasks are called in table order, the
temperature task in state READ_TEMPERATURE, and setHeatMode finds in
ambientTemperature the value that read has just returned. -/
theorem iteration_heat_due (irq : Nat → World → World) (sensor : Nat → Transfer) (n : Nat)
    (h1 : 1 ≤ n) (hd : 10 ∣ n) :
    ((mainLoop irq n (startSched sensor)).tasks.map (fun t => t.state))[1]?
      = some READ_TEMPERATURE ∧
    (iteration (mainLoop irq n (startSched sensor))).calls
      = (mainLoop irq n (startSched sensor)).calls ++ [0, 1, 2] ∧
    (iteration (mainLoop irq n (startSched sensor))).world.transfers
      = (mainLoop irq n (startSched sensor)).world.transfers + 1 ∧
    (iteration (mainLoop irq n (startSched sensor))).world.ambientTemperature
      = (readTemp (mainLoop irq n (startSched sensor)).world).1 ∧
    (iteration (mainLoop irq n (startSched sensor))).world.led
      = (if (mainLoop irq n (startSched sensor)).world.seconds ≠ 0 then
          (mainLoop irq n (startSched sensor)).world.led ++
            [if (readTemp (mainLoop irq n (startSched sensor)).world).1
                < (iteration (mainLoop irq n (startSched sensor))).world.setPoint
             then Level.LED_ON else Level.LED_OFF]
        else (mainLoop irq n (startSched sensor)).world.led) := by
  obtain ⟨a, b, c, hts, ⟨ha1, ha2, ha3⟩, ⟨hb1, hb2, hb3⟩, ⟨hc1, hc2, hc3⟩, _, hr⟩ :=
    table_invariant irq sensor n
  have hbs := hr h1
  have hda : a.elapsedTime ≥ a.period := by rw [ha2, ha3]; omega
  have hdb : b.elapsedTime ≥ b.period := by rw [hb2, hb3]; omega
  have hdc : c.elapsedTime ≥ c.period := by rw [hc2, hc3]; omega
  generalize mainLoop irq n (startSched sensor) = S at hts ⊢
  have hS : S = { tasks := [a, b, c], world := S.world, calls := S.calls } := by
    rw [← hts]
  have hit := (congrArg iteration hS).trans (iteration_three a b c S.world S.calls)
  rw [hit, hts]
  simp only [loopBody_fire 0 a _ _ hda, loopBody_fire 1 b _ _ hdb, loopBody_fire 2 c _ _ hdc,
    ha1, hb1, hc1, hbs]
  obtain ⟨_, _, f3, f4, f5⟩ := adjust_frame a.state S.world
  obtain ⟨g1, _, g3, _, g5⟩ := getAmbient_frame READ_TEMPERATURE
    (adjustSetPointTemperature a.state S.world).2
  obtain ⟨_, r2, r3⟩ := getAmbient_read (adjustSetPointTemperature a.state S.world).2
  obtain ⟨s1, s2, s3, _⟩ := setHeatMode_frame c.state
    (getAmbientTemperature READ_TEMPERATURE (adjustSetPointTemperature a.state S.world).2).2
  have hrd : (readTemp (adjustSetPointTemperature a.state S.world).2).1
      = (readTemp S.world).1 := readTemp_congr _ _ f5 f4
  refine ⟨by simpa using hbs, by simp, ?_, ?_, ?_⟩
  · rw [s1, r2, f4]
  · rw [s2, r3, hrd]
  · rw [setHeatMode_led, g3, f3, g1, (adjust_frame a.state S.world).1, r3, hrd, s3]

/-! ## Lemmas on the echo command recogniser -/

namespace Uart2Echo

theorem mainThread_snoc (cs : List (Fin 256)) (c : Fin 256) (m : Machine) :
    mainThread (typed (cs ++ [c])) m = loopBody (mainThread (typed cs) m) (Read.ok c) := by
  simp [mainThread, typed, List.foldl_append]

theorem loopBody_ok (m : Machine) (c : Fin 256) (h : m.halted = false) :
    loopBody m (Read.ok c) = switchState m c := by
  simp [loopBody, h]

theorem switchState_halted (m : Machine) (c : Fin 256) :
    (switchState m c).halted = m.halted := by
  unfold switchState
  split_ifs <;> rfl

theorem switchState_state (m : Machine) (c : Fin 256) :
    (switchState m c).state
      = if m.state = STATE_IDLE ∧ c.val = 'O'.toNat then STATE_O
        else if m.state = STATE_O ∧ c.val = 'F'.toNat then STATE_F
        else STATE_IDLE := by
  have eO : 'O'.toNat = 79 := by decide
  have eN : 'N'.toNat = 78 := by decide
  have eF : 'F'.toNat = 70 := by decide
  unfold switchState STATE_IDLE STATE_O STATE_F
  rw [eO, eN, eF]
  split_ifs <;> simp_all

theorem switchState_led (m : Machine) (c : Fin 256) :
    (switchState m c).led
      = m.led ++ (if m.state = STATE_O ∧ c.val = 'N'.toNat then [Level.LED_ON]
                  else if m.state = STATE_F ∧ c.val = 'F'.toNat then [Level.LED_OFF]
                  else []) := by
  have eO : 'O'.toNat = 79 := by decide
  have eN : 'N'.toNat = 78 := by decide
  have eF : 'F'.toNat = 70 := by decide
  unfold switchState STATE_IDLE STATE_O STATE_F
  rw [eO, eN, eF]
  split_ifs <;> simp_all

theorem switchState_uart (m : Machine) (c : Fin 256) :
    (switchState m c).uart
      = m.uart ++ (if m.state = STATE_O ∧ c.val = 'N'.toNat then [Text.LED_ON_TEXT]
                   else if m.state = STATE_F ∧ c.val = 'F'.toNat then [Text.LED_OFF_TEXT]
                   else []) := by
  have eO : 'O'.toNat = 79 := by decide
  have eN : 'N'.toNat = 78 := by decide
  have eF : 'F'.toNat = 70 := by decide
  unfold switchState STATE_IDLE STATE_O STATE_F
  rw [eO, eN, eF]
  split_ifs <;> simp_all

/-- On typed input the thread never stops and its state stays among
STATE_IDLE, STATE_O and STATE_F. -/
theorem mainThread_typed_invariant (cs : List (Fin 256)) :
    (mainThread (typed cs) start).halted = false ∧
    ((mainThread (typed cs) start).state = STATE_IDLE ∨
      (mainThread (typed cs) start).state = STATE_O ∨
      (mainThread (typed cs) start).state = STATE_F) := by
  induction cs using List.reverseRecOn with
  | nil => exact ⟨rfl, Or.inl rfl⟩
  | append_singleton xs x ih =>
    rw [mainThread_snoc, loopBody_ok _ _ ih.1, switchState_halted, switchState_state]
    refine ⟨ih.1, ?_⟩
    split_ifs
    · exact Or.inr (Or.inl rfl)
    · exact Or.inr (Or.inr rfl)
    · exact Or.inl rfl

end Uart2Echo

/-! ## Claims -/

/-- C1. Setpoint range invariant: from the start-up world (setPoint 20, task
state BUTTON_INIT), after any finite interleaving of increase posts, decrease
posts and firings of the button task, setPoint lies in [0, 99]; a firing in
state INCREASE_TEMPERATURE with setPoint 99 leaves it at 99 and a firing in
state DECREASE_TEMPERATURE with setPoint 0 leaves it at 0. -/
theorem setPoint_range_invariant :
    (∀ (sensor : Nat → Transfer) (evs : List ButtonEvent),
      0 ≤ (buttonRun evs (BUTTON_INIT, startWorld sensor)).2.setPoint ∧
        (buttonRun evs (BUTTON_INIT, startWorld sensor)).2.setPoint ≤ 99) ∧
    (∀ w : World,
      (adjustSetPointTemperature INCREASE_TEMPERATURE { w with setPoint := 99 }).2.setPoint
        = 99) ∧
    (∀ w : World,
      (adjustSetPointTemperature DECREASE_TEMPERATURE { w with setPoint := 0 }).2.setPoint
        = 0) := by
  refine ⟨?_, ?_, ?_⟩
  · intro sensor evs
    exact buttonRun_setPoint_range evs (BUTTON_INIT, startWorld sensor)
      (by simp [startWorld])
  · intro w
    simp [adjustSetPointTemperature, INCREASE_TEMPERATURE]
  · intro w
    simp [adjustSetPointTemperature, INCREASE_TEMPERATURE, DECREASE_TEMPERATURE]

/-- C2, as the code has it. When the sensor transfer fails, a firing of
getAmbientTemperature in state READ_TEMPERATURE stores 0 into
ambientTemperature whatever it held before, displays the two error messages,
keeps setPoint and stays in READ_TEMPERATURE. -/
theorem sensor_failure_stores_zero (w : World) (status : Int)
    (h : w.sensor w.transfers = Transfer.failed status) :
    (getAmbientTemperature READ_TEMPERATURE w).1 = READ_TEMPERATURE ∧
    (getAmbientTemperature READ_TEMPERATURE w).2.ambientTemperature = 0 ∧
    (getAmbientTemperature READ_TEMPERATURE w).2.setPoint = w.setPoint ∧
    (getAmbientTemperature READ_TEMPERATURE w).2.uart =
      w.uart ++ [Message.sensorError status, Message.powerCycle] := by
  have hr := readTemp_failed w status h
  simp [getAmbientTemperature, hr, READ_TEMPERATURE, TEMPERATURE_SENSOR_INIT]

/-- Witness of C2: a failed transfer (status -1) with a prior reading of 22. -/
theorem sensor_failure_stores_zero_witness :
    ({ startWorld (fun _ => Transfer.failed (-1)) with ambientTemperature := 22 } : World).sensor
        ({ startWorld (fun _ => Transfer.failed (-1)) with ambientTemperature := 22 } :
          World).transfers = Transfer.failed (-1) ∧
    ((getAmbientTemperature READ_TEMPERATURE
        { startWorld (fun _ => Transfer.failed (-1)) with ambientTemperature := 22 }).1
        = READ_TEMPERATURE ∧
      (getAmbientTemperature READ_TEMPERATURE
        { startWorld (fun _ => Transfer.failed (-1)) with ambientTemperature := 22 }).2.ambientTemperature
        = 0 ∧
      (getAmbientTemperature READ_TEMPERATURE
        { startWorld (fun _ => Transfer.failed (-1)) with ambientTemperature := 22 }).2.setPoint
        = ({ startWorld (fun _ => Transfer.failed (-1)) with ambientTemperature := 22 } :
          World).setPoint ∧
      (getAmbientTemperature READ_TEMPERATURE
        { startWorld (fun _ => Transfer.failed (-1)) with ambientTemperature := 22 }).2.uart
        = ({ startWorld (fun _ => Transfer.failed (-1)) with ambientTemperature := 22 } :
            World).uart ++ [Message.sensorError (-1), Message.powerCycle]) :=
  ⟨rfl, sensor_failure_stores_zero
    { startWorld (fun _ => Transfer.failed (-1)) with ambientTemperature := 22 } (-1) rfl⟩

/-- C2 as stated fails: with a prior reading of 22 and a failing transfer, the
firing in READ_TEMPERATURE stays in READ_TEMPERATURE but leaves
ambientTemperature at 0, not at 22. -/
theorem sensor_failure_loses_reading :
    ({ startWorld (fun _ => Transfer.failed (-1)) with ambientTemperature := 22 } :
      World).ambientTemperature = 22 ∧
    (getAmbientTemperature READ_TEMPERATURE
      { startWorld (fun _ => Transfer.failed (-1)) with ambientTemperature := 22 }).1
      = READ_TEMPERATURE ∧
    (getAmbientTemperature READ_TEMPERATURE
      { startWorld (fun _ => Transfer.failed (-1)) with ambientTemperature := 22 }).2.ambientTemperature
      = 0 ∧
    (getAmbientTemperature READ_TEMPERATURE
      { startWorld (fun _ => Transfer.failed (-1)) with ambientTemperature := 22 }).2.ambientTemperature
      ≠ 22 := by
  decide

/-- C3 at the failing input. A successful transfer of the byte pair
(0xFF, 0xFF), whose two's-complement value is -1 (that is -1/128 degree), makes
readTemp return -4096: the scaled value 0 has lost the sign before
`temperature |= 0xF000` is applied to it. The distance to -1/128 is not below
1; the same result comes out for the pair (0xFF, 0x81), value -127. -/
theorem readTemp_small_negative :
    sensorValue 0xFF 0xFF = -1 ∧
    (readTemp (startWorld (fun _ => Transfer.ok 0xFF 0xFF))).1 = -4096 ∧
    ¬ (|(readTemp (startWorld (fun _ => Transfer.ok 0xFF 0xFF))).1 * 128
        - sensorValue 0xFF 0xFF| < 128) ∧
    sensorValue 0xFF 0x81 = -127 ∧
    (readTemp (startWorld (fun _ => Transfer.ok 0xFF 0x81))).1 = -4096 := by
  decide

/-- C4, as the code has it. When the sensor transfer succeeds with the byte pair
(0x16, 0x00), readTemp returns 44 (0x1600 = 5632 and 5632 / 128 = 44). -/
theorem readTemp_fixed_vector (w : World) :
    (readTemp { w with sensor := fun _ => Transfer.ok 0x16 0x00 }).1 = 44 := by
  simp only [readTemp]
  decide

/-- C4 as stated fails: on the byte pair (0x16, 0x00) readTemp does not return 22. -/
theorem readTemp_fixed_vector_not_22 :
    (readTemp (startWorld (fun _ => Transfer.ok 0x16 0x00))).1 ≠ 22 := by
  decide

/-- C5. Counting the firings of setHeatMode from start-up (seconds = 0, state
HEAT_INIT), whatever ambientTemperature and setPoint each firing finds: the
first firing writes nothing to the LED and displays nothing; every later
firing, that is the one after any non-empty run `e0 :: envs` of earlier
firings, appends exactly one level to the LED log and exactly one message, a
status report, to the display log. The bound keeps the `int` counter seconds
below its overflow: it covers the firings up to number 2^31. -/
theorem heat_mode_output_count (sensor : Nat → Transfer) (e0 : Int × Int)
    (envs : List (Int × Int)) (env : Int × Int) (h : (e0 :: envs).length < 2147483648) :
    ((heatFire (heatStart sensor) env).2.led = (heatStart sensor).2.led ∧
      (heatFire (heatStart sensor) env).2.uart = (heatStart sensor).2.uart) ∧
    (∃ l : Level, (heatFire (heatRun (e0 :: envs) (heatStart sensor)) env).2.led
        = (heatRun (e0 :: envs) (heatStart sensor)).2.led ++ [l]) ∧
    (∃ a p t c : Int, (heatFire (heatRun (e0 :: envs) (heatStart sensor)) env).2.uart
        = (heatRun (e0 :: envs) (heatStart sensor)).2.uart ++ [Message.report a p t c]) ∧
    reportCount (heatFire (heatRun (e0 :: envs) (heatStart sensor)) env).2.uart
        = reportCount (heatRun (e0 :: envs) (heatStart sensor)).2.uart + 1 := by
  refine ⟨⟨rfl, rfl⟩, ?_⟩
  have hs := heatRun_seconds_ne_zero (e0 :: envs) (heatStart sensor) rfl h
    (List.cons_ne_nil e0 envs)
  generalize heatRun (e0 :: envs) (heatStart sensor) = b at hs ⊢
  have hs2 : ({ b.2 with ambientTemperature := env.1, setPoint := env.2 } : World).seconds
      ≠ 0 := hs
  unfold heatFire
  by_cases hlt : env.1 < env.2
  · rw [setHeatMode_on _ _ hs2 hlt]
    exact ⟨⟨_, rfl⟩, ⟨_, _, _, _, rfl⟩, by simp [reportCount]⟩
  · rw [setHeatMode_off _ _ hs2 hlt]
    exact ⟨⟨_, rfl⟩, ⟨_, _, _, _, rfl⟩, by simp [reportCount]⟩

/-- Witness of C5: the third firing, after two that found (25, 20) and (20, 20). -/
theorem heat_mode_output_count_witness :
    (((25 : Int), (20 : Int)) :: [((20 : Int), (20 : Int))]).length < 2147483648 ∧
    ((heatFire (heatStart (fun _ => Transfer.ok 0x0A 0)) (19, 20)).2.led
        = (heatStart (fun _ => Transfer.ok 0x0A 0)).2.led ∧
      (heatFire (heatStart (fun _ => Transfer.ok 0x0A 0)) (19, 20)).2.uart
        = (heatStart (fun _ => Transfer.ok 0x0A 0)).2.uart) ∧
    (∃ l : Level,
      (heatFire (heatRun ((25, 20) :: [(20, 20)]) (heatStart (fun _ => Transfer.ok 0x0A 0)))
          (19, 20)).2.led
        = (heatRun ((25, 20) :: [(20, 20)]) (heatStart (fun _ => Transfer.ok 0x0A 0))).2.led
          ++ [l]) ∧
    (∃ a p t c : Int,
      (heatFire (heatRun ((25, 20) :: [(20, 20)]) (heatStart (fun _ => Transfer.ok 0x0A 0)))
          (19, 20)).2.uart
        = (heatRun ((25, 20) :: [(20, 20)]) (heatStart (fun _ => Transfer.ok 0x0A 0))).2.uart
          ++ [Message.report a p t c]) ∧
    reportCount
        (heatFire (heatRun ((25, 20) :: [(20, 20)]) (heatStart (fun _ => Transfer.ok 0x0A 0)))
          (19, 20)).2.uart
      = reportCount
          (heatRun ((25, 20) :: [(20, 20)]) (heatStart (fun _ => Transfer.ok 0x0A 0))).2.uart
        + 1 :=
  ⟨by decide,
    heat_mode_output_count (fun _ => Transfer.ok 0x0A 0) (25, 20) [(20, 20)] (19, 20)
      (by decide)⟩

/-- C6. On every firing of setHeatMode past the first, that is after any
non-empty run `e0 :: envs` of earlier firings from start-up (up to firing
number 2^31 of the `int` counter), for all values found in ambientTemperature
and setPoint: the returned state is HEAT_ON, the LED is written on and the
report carries tag 1 exactly when ambientTemperature < setPoint; otherwise,
equality included, the returned state is HEAT_OFF, the LED is written off and
the report carries tag 0. The task state passed in has no influence on the
result. -/
theorem heat_mode_decision (sensor : Nat → Transfer) (e0 : Int × Int)
    (envs : List (Int × Int)) (env : Int × Int) (h : (e0 :: envs).length < 2147483648) :
    (heatFire (heatRun (e0 :: envs) (heatStart sensor)) env).1
      = (if env.1 < env.2 then HEAT_ON else HEAT_OFF) ∧
    (heatFire (heatRun (e0 :: envs) (heatStart sensor)) env).2.led
      = (heatRun (e0 :: envs) (heatStart sensor)).2.led
        ++ [if env.1 < env.2 then Level.LED_ON else Level.LED_OFF] ∧
    (heatFire (heatRun (e0 :: envs) (heatStart sensor)) env).2.uart
      = (heatRun (e0 :: envs) (heatStart sensor)).2.uart
        ++ [Message.report env.1 env.2 (if env.1 < env.2 then 1 else 0)
              (e0 :: envs).length] ∧
    (∀ state : Int,
      heatFire (state, (heatRun (e0 :: envs) (heatStart sensor)).2) env
        = heatFire (heatRun (e0 :: envs) (heatStart sensor)) env) := by
  have hne := List.cons_ne_nil e0 envs
  have hs := heatRun_seconds_ne_zero (e0 :: envs) (heatStart sensor) rfl h hne
  have hv := heatRun_seconds_small (e0 :: envs) (heatStart sensor) rfl h
  generalize heatRun (e0 :: envs) (heatStart sensor) = b at hs hv ⊢
  have hs2 : ({ b.2 with ambientTemperature := env.1, setPoint := env.2 } : World).seconds
      ≠ 0 := hs
  unfold heatFire
  by_cases hlt : env.1 < env.2
  · rw [setHeatMode_on _ _ hs2 hlt]
    rw [if_pos hlt, if_pos hlt, if_pos hlt]
    refine ⟨rfl, rfl, ?_, ?_⟩
    · show b.2.uart ++ [Message.report env.1 env.2 HEAT_ON b.2.seconds] = _
      rw [hv]; rfl
    · intro state
      exact setHeatMode_on _ _ hs2 hlt
  · rw [setHeatMode_off _ _ hs2 hlt]
    rw [if_neg hlt, if_neg hlt, if_neg hlt]
    refine ⟨rfl, rfl, ?_, ?_⟩
    · show b.2.uart ++ [Message.report env.1 env.2 HEAT_OFF b.2.seconds] = _
      rw [hv]; rfl
    · intro state
      exact setHeatMode_off _ _ hs2 hlt

/-- Witness of C6: the second firing finds 19 < 20 and turns the heater on. -/
theorem heat_mode_decision_witness :
    (((25 : Int), (20 : Int)) :: []).length < 2147483648 ∧
    (heatFire (heatRun ((25, 20) :: []) (heatStart (fun _ => Transfer.ok 0x0A 0)))
        (19, 20)).1 = HEAT_ON ∧
    (heatFire (heatRun ((25, 20) :: []) (heatStart (fun _ => Transfer.ok 0x0A 0)))
        (19, 20)).2.led
      = (heatRun ((25, 20) :: []) (heatStart (fun _ => Transfer.ok 0x0A 0))).2.led
        ++ [Level.LED_ON] ∧
    (heatFire (heatRun ((25, 20) :: []) (heatStart (fun _ => Transfer.ok 0x0A 0)))
        (19, 20)).2.uart
      = (heatRun ((25, 20) :: []) (heatStart (fun _ => Transfer.ok 0x0A 0))).2.uart
        ++ [Message.report 19 20 1 1] :=
  ⟨by decide,
    (heat_mode_decision (fun _ => Transfer.ok 0x0A 0) (25, 20) [] (19, 20) (by decide)).1,
    (heat_mode_decision (fun _ => Transfer.ok 0x0A 0) (25, 20) [] (19, 20) (by decide)).2.1,
    (heat_mode_decision (fun _ => Transfer.ok 0x0A 0) (25, 20) [] (19, 20) (by decide)).2.2.1⟩

/-- C7, as the code has it. For every setpoint in [0, 99], one firing of
adjustSetPointTemperature in its idle state BUTTON_INIT leaves setpoint
unchanged and returns the Pending Input Event as the next task state; it is the
following firing that sets setpoint to min(setpoint + 1, 99) if that event was
increase, to max(setpoint - 1, 0) if it was decrease, and leaves it unchanged
if it was none, whatever the register `b` holds by then. -/
theorem setPoint_step_next_firing (w : World) (b : Int)
    (h : 0 ≤ w.setPoint ∧ w.setPoint ≤ 99) :
    (adjustSetPointTemperature BUTTON_INIT w).2.setPoint = w.setPoint ∧
    (adjustSetPointTemperature BUTTON_INIT w).1 = w.BUTTON_STATE ∧
    (adjustSetPointTemperature (adjustSetPointTemperature BUTTON_INIT w).1
        { (adjustSetPointTemperature BUTTON_INIT w).2 with BUTTON_STATE := b }).2.setPoint
      = (if w.BUTTON_STATE = INCREASE_TEMPERATURE then min (w.setPoint + 1) 99
         else if w.BUTTON_STATE = DECREASE_TEMPERATURE then max (w.setPoint - 1) 0
         else w.setPoint) := by
  rw [adjust_idle]
  refine ⟨rfl, rfl, ?_⟩
  rw [adjust_setPoint]
  show (if w.BUTTON_STATE = INCREASE_TEMPERATURE then
        (if w.setPoint < 99 then toInt16 (w.setPoint + 1) else w.setPoint)
      else if w.BUTTON_STATE = DECREASE_TEMPERATURE then
        (if w.setPoint > 0 then toInt16 (w.setPoint - 1) else w.setPoint)
      else w.setPoint) = _
  unfold toInt16
  split_ifs <;> omega

/-- Witness of C7: setpoint 20 with an increase pending. -/
theorem setPoint_step_next_firing_witness :
    (0 ≤ (gpioIncreaseTemperatureCallback (startWorld (fun _ => Transfer.ok 0x0A 0))).setPoint ∧
      (gpioIncreaseTemperatureCallback (startWorld (fun _ => Transfer.ok 0x0A 0))).setPoint ≤ 99) ∧
    (adjustSetPointTemperature BUTTON_INIT
        (gpioIncreaseTemperatureCallback (startWorld (fun _ => Transfer.ok 0x0A 0)))).2.setPoint
      = 20 ∧
    (adjustSetPointTemperature
        (adjustSetPointTemperature BUTTON_INIT
          (gpioIncreaseTemperatureCallback (startWorld (fun _ => Transfer.ok 0x0A 0)))).1
        { (adjustSetPointTemperature BUTTON_INIT
            (gpioIncreaseTemperatureCallback (startWorld (fun _ => Transfer.ok 0x0A 0)))).2
          with BUTTON_STATE := INCREASE_TEMPERATURE }).2.setPoint = 21 :=
  ⟨by decide,
    (setPoint_step_next_firing
      (gpioIncreaseTemperatureCallback (startWorld (fun _ => Transfer.ok 0x0A 0)))
      INCREASE_TEMPERATURE (by decide)).1,
    (setPoint_step_next_firing
      (gpioIncreaseTemperatureCallback (startWorld (fun _ => Transfer.ok 0x0A 0)))
      INCREASE_TEMPERATURE (by decide)).2.2⟩

/-- C7 as stated fails: with setpoint 20, the task in its idle state
BUTTON_INIT and an increase pending, one firing leaves setpoint at 20 instead of
min(20 + 1, 99) = 21; with a decrease pending it leaves 20 instead of 19. In
the two other task states the firing does not follow the pending event either:
with no event pending, state INCREASE_TEMPERATURE makes it 21 and state
DECREASE_TEMPERATURE makes it 19. -/
theorem setPoint_step_not_same_firing :
    (adjustSetPointTemperature BUTTON_INIT
        (gpioIncreaseTemperatureCallback (startWorld (fun _ => Transfer.ok 0x0A 0)))).2.setPoint
      = 20 ∧
    (adjustSetPointTemperature BUTTON_INIT
        (gpioIncreaseTemperatureCallback (startWorld (fun _ => Transfer.ok 0x0A 0)))).2.setPoint
      ≠ min ((startWorld (fun _ => Transfer.ok 0x0A 0)).setPoint + 1) 99 ∧
    (adjustSetPointTemperature BUTTON_INIT
        (gpioDecreaseTemperatureCallback (startWorld (fun _ => Transfer.ok 0x0A 0)))).2.setPoint
      ≠ max ((startWorld (fun _ => Transfer.ok 0x0A 0)).setPoint - 1) 0 ∧
    (startWorld (fun _ => Transfer.ok 0x0A 0)).BUTTON_STATE = BUTTON_INIT ∧
    (adjustSetPointTemperature INCREASE_TEMPERATURE
        (startWorld (fun _ => Transfer.ok 0x0A 0))).2.setPoint = 21 ∧
    (adjustSetPointTemperature DECREASE_TEMPERATURE
        (startWorld (fun _ => Transfer.ok 0x0A 0))).2.setPoint = 19 := by
  decide

/-- C8, as the code has it. For every task state and every Pending Input Event
value of the enumeration: a firing in task state INCREASE_TEMPERATURE or
DECREASE_TEMPERATURE leaves the register at BUTTON_INIT; a firing in task state
BUTTON_INIT leaves the register as it found it and returns its value as the
task state; in every case, after the firing that follows with no post in
between, the register holds BUTTON_INIT. -/
theorem pending_event_cleared_within_two_firings (state : Int) (w : World)
    (hs : state = INCREASE_TEMPERATURE ∨ state = DECREASE_TEMPERATURE ∨ state = BUTTON_INIT)
    (hb : w.BUTTON_STATE = INCREASE_TEMPERATURE ∨ w.BUTTON_STATE = DECREASE_TEMPERATURE ∨
      w.BUTTON_STATE = BUTTON_INIT) :
    (state ≠ BUTTON_INIT →
      (adjustSetPointTemperature state w).2.BUTTON_STATE = BUTTON_INIT) ∧
    (state = BUTTON_INIT →
      (adjustSetPointTemperature state w).2.BUTTON_STATE = w.BUTTON_STATE ∧
      (adjustSetPointTemperature state w).1 = w.BUTTON_STATE) ∧
    (adjustSetPointTemperature (adjustSetPointTemperature state w).1
      (adjustSetPointTemperature state w).2).2.BUTTON_STATE = BUTTON_INIT := by
  refine ⟨?_, ?_, ?_⟩
  · intro hne
    rw [adjust_BUTTON_STATE]
    rcases hs with h | h | h
    · simp [h]
    · simp [h]
    · exact absurd h hne
  · intro h
    rw [h, adjust_idle]
    exact ⟨rfl, rfl⟩
  · rw [adjust_BUTTON_STATE, adjust_state, adjust_BUTTON_STATE]
    rcases hs with h | h | h <;> rcases hb with h2 | h2 | h2 <;>
      simp [h, h2, INCREASE_TEMPERATURE, DECREASE_TEMPERATURE, BUTTON_INIT]

/-- Witness of C8: task state BUTTON_INIT with an increase pending. -/
theorem pending_event_cleared_within_two_firings_witness :
    (BUTTON_INIT = INCREASE_TEMPERATURE ∨ BUTTON_INIT = DECREASE_TEMPERATURE ∨
      BUTTON_INIT = BUTTON_INIT) ∧
    ((gpioIncreaseTemperatureCallback (startWorld (fun _ => Transfer.ok 0x0A 0))).BUTTON_STATE
        = INCREASE_TEMPERATURE ∨
      (gpioIncreaseTemperatureCallback (startWorld (fun _ => Transfer.ok 0x0A 0))).BUTTON_STATE
        = DECREASE_TEMPERATURE ∨
      (gpioIncreaseTemperatureCallback (startWorld (fun _ => Transfer.ok 0x0A 0))).BUTTON_STATE
        = BUTTON_INIT) ∧
    (adjustSetPointTemperature
      (adjustSetPointTemperature BUTTON_INIT
        (gpioIncreaseTemperatureCallback (startWorld (fun _ => Transfer.ok 0x0A 0)))).1
      (adjustSetPointTemperature BUTTON_INIT
        (gpioIncreaseTemperatureCallback
          (startWorld (fun _ => Transfer.ok 0x0A 0)))).2).2.BUTTON_STATE = BUTTON_INIT :=
  ⟨by decide, by decide,
    (pending_event_cleared_within_two_firings BUTTON_INIT
      (gpioIncreaseTemperatureCallback (startWorld (fun _ => Transfer.ok 0x0A 0)))
      (by decide) (by decide)).2.2⟩

/-- C8 as stated fails: with the task in state BUTTON_INIT and an increase
posted before the firing, the register still holds INCREASE_TEMPERATURE, not
BUTTON_INIT, immediately after that firing. -/
theorem pending_event_survives_first_firing :
    (adjustSetPointTemperature BUTTON_INIT
        (gpioIncreaseTemperatureCallback
          (startWorld (fun _ => Transfer.ok 0x0A 0)))).2.BUTTON_STATE = INCREASE_TEMPERATURE ∧
    (adjustSetPointTemperature BUTTON_INIT
        (gpioIncreaseTemperatureCallback
          (startWorld (fun _ => Transfer.ok 0x0A 0)))).2.BUTTON_STATE ≠ BUTTON_INIT := by
  decide

/-- C9. From an idle button task (state BUTTON_INIT) with any setpoint in
[0, 99], whether or not an event is pending, posting the increase event twice before the next
firing gives, after that firing and after each of the `n` later firings with no
further post, the same setpoint as posting it once; that setpoint is the
initial one or the initial one plus 1, never plus 2, and from the second firing
on it is min(setpoint + 1, 99). -/
theorem double_post_single_increment (w : World) (n : Nat)
    (h : 0 ≤ w.setPoint ∧ w.setPoint ≤ 99) :
    (buttonRun (ButtonEvent.postIncrease :: ButtonEvent.postIncrease ::
        List.replicate (n + 1) ButtonEvent.fire) (BUTTON_INIT, w)).2.setPoint
      = (buttonRun (ButtonEvent.postIncrease ::
        List.replicate (n + 1) ButtonEvent.fire) (BUTTON_INIT, w)).2.setPoint ∧
    w.setPoint ≤ (buttonRun (ButtonEvent.postIncrease :: ButtonEvent.postIncrease ::
        List.replicate (n + 1) ButtonEvent.fire) (BUTTON_INIT, w)).2.setPoint ∧
    (buttonRun (ButtonEvent.postIncrease :: ButtonEvent.postIncrease ::
        List.replicate (n + 1) ButtonEvent.fire) (BUTTON_INIT, w)).2.setPoint
      ≤ w.setPoint + 1 ∧
    (1 ≤ n →
      (buttonRun (ButtonEvent.postIncrease :: ButtonEvent.postIncrease ::
        List.replicate (n + 1) ButtonEvent.fire) (BUTTON_INIT, w)).2.setPoint
      = min (w.setPoint + 1) 99) := by
  have hpp : buttonRun (ButtonEvent.postIncrease :: ButtonEvent.postIncrease ::
        List.replicate (n + 1) ButtonEvent.fire) (BUTTON_INIT, w)
      = buttonRun (ButtonEvent.postIncrease ::
        List.replicate (n + 1) ButtonEvent.fire) (BUTTON_INIT, w) := rfl
  rw [hpp]
  refine ⟨rfl, ?_⟩
  rw [buttonRun_cons, List.replicate_succ, buttonRun_cons]
  have h1 : buttonStep (buttonStep (BUTTON_INIT, w) ButtonEvent.postIncrease) ButtonEvent.fire
      = (INCREASE_TEMPERATURE, gpioIncreaseTemperatureCallback w) := by
    show adjustSetPointTemperature BUTTON_INIT (gpioIncreaseTemperatureCallback w) = _
    rw [adjust_idle]; rfl
  rw [h1]
  cases n with
  | zero =>
    refine ⟨?_, ?_, ?_⟩
    · show w.setPoint ≤ w.setPoint
      omega
    · show w.setPoint ≤ w.setPoint + 1
      omega
    · intro hn; omega
  | succ m =>
    rw [List.replicate_succ, buttonRun_cons]
    have h2 : buttonStep (INCREASE_TEMPERATURE, gpioIncreaseTemperatureCallback w)
        ButtonEvent.fire
        = (BUTTON_INIT, { w with
            setPoint := if w.setPoint < 99 then toInt16 (w.setPoint + 1) else w.setPoint
            BUTTON_STATE := BUTTON_INIT }) := by
      show adjustSetPointTemperature INCREASE_TEMPERATURE (gpioIncreaseTemperatureCallback w) = _
      unfold adjustSetPointTemperature gpioIncreaseTemperatureCallback
      by_cases hlt : w.setPoint < 99
      · simp [hlt]
      · simp [hlt]
    rw [h2, buttonRun_fire_idle m _ rfl]
    show w.setPoint ≤ (if w.setPoint < 99 then toInt16 (w.setPoint + 1) else w.setPoint) ∧
      (if w.setPoint < 99 then toInt16 (w.setPoint + 1) else w.setPoint) ≤ w.setPoint + 1 ∧
      (1 ≤ m + 1 →
        (if w.setPoint < 99 then toInt16 (w.setPoint + 1) else w.setPoint)
          = min (w.setPoint + 1) 99)
    unfold toInt16
    split_ifs <;> omega

/-- Witness of C9: the start-up world (setpoint 20), two posts, three firings. -/
theorem double_post_single_increment_witness :
    (0 ≤ (startWorld (fun _ => Transfer.ok 0x0A 0)).setPoint ∧
      (startWorld (fun _ => Transfer.ok 0x0A 0)).setPoint ≤ 99) ∧
    (buttonRun (ButtonEvent.postIncrease :: ButtonEvent.postIncrease ::
        List.replicate (2 + 1) ButtonEvent.fire)
        (BUTTON_INIT, startWorld (fun _ => Transfer.ok 0x0A 0))).2.setPoint
      = min ((startWorld (fun _ => Transfer.ok 0x0A 0)).setPoint + 1) 99 :=
  ⟨by decide,
    (double_post_single_increment (startWorld (fun _ => Transfer.ok 0x0A 0)) 2
      (by decide)).2.2.2 (by decide)⟩

/-- C10, as the code has it. For every task of the scheduler whose period P is
a positive multiple of the base tick timerPeriod = 100 and whose elapsedTime
starts at P as in the task table, for every behaviour of the other tasks and of
the interrupts, and for every M: over the first M scheduler iterations the
task's step function is invoked ceil(M * 100 / P) = floor((M * 100 + P - 1) / P)
times; this is floor(M * 100 / P) whenever M * 100 is a multiple of P. -/
theorem firing_count_ceiling (irq : Nat → World → World) (s : Sched) (i : Nat) (t : task)
    (k M : Nat) (hk : 0 < k) (hP : k * timerPeriod < 4294967296)
    (ht : s.tasks[i]? = some t) (hp : t.period = k * timerPeriod)
    (he : t.elapsedTime = t.period) (hc : s.calls = []) :
    (mainLoop irq M s).calls.count i = (M * timerPeriod + t.period - 1) / t.period ∧
    (t.period ∣ M * timerPeriod →
      (mainLoop irq M s).calls.count i = M * timerPeriod / t.period) := by
  obtain ⟨t1, q, r, _, _, h3, h4, _, h6⟩ :=
    mainLoop_timing irq s i t k hk hP ht hp (he.trans hp) M
  rw [hc] at h6
  have hq : (mainLoop irq M s).calls.count i = q := by simpa using h6
  rw [hq, hp]
  unfold timerPeriod
  have e1 : q * (k * 100) = 100 * (q * k) := by ring
  have e2 : (q + 1) * (k * 100) = 100 * (q * k) + 100 * k := by ring
  constructor
  · symm
    apply Nat.div_eq_of_lt_le
    · rw [e1]; omega
    · rw [e2]; omega
  · intro hd
    have hkM : k ∣ M := Nat.dvd_of_mul_dvd_mul_right (by decide : 0 < 100) hd
    obtain ⟨c, hMc⟩ := hkM
    have hqc : q = c := by
      rcases Nat.lt_trichotomy q c with hlt | heq | hgt
      · have h7 : (q + 1) * k ≤ c * k := Nat.mul_le_mul_right k hlt
        have h8 : (q + 1) * k = q * k + k := by ring
        have h9 : c * k = k * c := by ring
        omega
      · exact heq
      · have h7 : (c + 1) * k ≤ q * k := Nat.mul_le_mul_right k hgt
        have h8 : (c + 1) * k = c * k + k := by ring
        have h9 : c * k = k * c := by ring
        omega
    rw [hMc, hqc]
    have e3 : k * c * 100 = c * (k * 100) := by ring
    rw [e3]
    exact (Nat.mul_div_cancel c (by omega : 0 < k * 100)).symm

/-- Witness of C10: the button task of the task table (index 0, period 200)
has been invoked twice over the first three iterations. -/
theorem firing_count_ceiling_witness :
    0 < 2 ∧ 2 * timerPeriod < 4294967296 ∧
    (startSched (fun _ => Transfer.ok 0x0A 0)).tasks[0]? = some
      { state := BUTTON_INIT, period := checkButtonPeriod, elapsedTime := checkButtonPeriod,
        tickFunction := adjustSetPointTemperature } ∧
    checkButtonPeriod = 2 * timerPeriod ∧
    (startSched (fun _ => Transfer.ok 0x0A 0)).calls = [] ∧
    (mainLoop noIrq 3 (startSched (fun _ => Transfer.ok 0x0A 0))).calls.count 0
      = (3 * timerPeriod + checkButtonPeriod - 1) / checkButtonPeriod :=
  ⟨by decide, by decide, rfl, rfl, rfl,
    (firing_count_ceiling noIrq (startSched (fun _ => Transfer.ok 0x0A 0)) 0
      { state := BUTTON_INIT, period := checkButtonPeriod, elapsedTime := checkButtonPeriod,
        tickFunction := adjustSetPointTemperature }
      2 3 (by decide) (by decide) rfl rfl rfl rfl).1⟩

/-- C10 as stated fails: over the first scheduler iteration (M = 1) the button
task of the task table, period 200, is invoked once, while
floor(1 * 100 / 200) = 0. -/
theorem firing_count_not_floor :
    (mainLoop noIrq 1 (startSched (fun _ => Transfer.ok 0x0A 0))).calls.count 0 = 1 ∧
    1 * timerPeriod / checkButtonPeriod = 0 ∧
    (mainLoop noIrq 1 (startSched (fun _ => Transfer.ok 0x0A 0))).calls.count 0
      ≠ 1 * timerPeriod / checkButtonPeriod := by
  decide

/-- C12. For every task whose period P is a positive multiple `k * 100` of the
base tick, started as the task table starts it (elapsedTime = P), whatever the
other tasks and the interrupts do, and for every N: once N scheduler
iterations have run, the elapsedTime that the firing check (the `if` of the
loop body) leaves, just before the next tick is added, is (N * 100) mod P. -/
theorem elapsed_after_firing_check (irq : Nat → World → World) (s : Sched) (i : Nat)
    (t : task) (k N : Nat) (hk : 0 < k) (hP : k * timerPeriod < 4294967296)
    (ht : s.tasks[i]? = some t) (hp : t.period = k * timerPeriod)
    (he : t.elapsedTime = t.period) :
    ∃ t1 : task, (mainLoop irq N s).tasks[i]? = some t1 ∧
      ∀ (w : World) (c : List Nat),
        (dueCheck i t1 w c).1.elapsedTime = (N * timerPeriod) % t.period := by
  obtain ⟨t1, q, r, h1, h2, h3, h4, h5, _⟩ :=
    mainLoop_timing irq s i t k hk hP ht hp (he.trans hp) N
  refine ⟨t1, h1, ?_⟩
  intro w c
  rw [dueCheck_elapsedTime, h5, h2, hp]
  unfold timerPeriod
  by_cases hr : r + 1 = k
  · have hd : 100 * (r + 1) ≥ k * 100 := by omega
    rw [if_pos hd]
    have hN : N = q * k := by omega
    have e : q * k * 100 = k * 100 * q := by ring
    rw [hN, e, Nat.mul_mod_right]
  · have hd : ¬ 100 * (r + 1) ≥ k * 100 := by omega
    rw [if_neg hd]
    cases q with
    | zero => omega
    | succ q1 =>
      have e1 : (q1 + 1) * k = q1 * k + k := by ring
      have hN : N = q1 * k + (r + 1) := by omega
      have e : (q1 * k + (r + 1)) * 100 = k * 100 * q1 + 100 * (r + 1) := by ring
      rw [hN, e, Nat.mul_add_mod]
      exact (Nat.mod_eq_of_lt (by omega)).symm

/-- Witness of C12: the temperature task of the task table (index 1, period
500) after 7 iterations. -/
theorem elapsed_after_firing_check_witness :
    0 < 5 ∧ 5 * timerPeriod < 4294967296 ∧
    (startSched (fun _ => Transfer.ok 0x0A 0)).tasks[1]? = some
      { state := TEMPERATURE_SENSOR_INIT, period := checkTemperaturePeriod,
        elapsedTime := checkTemperaturePeriod, tickFunction := getAmbientTemperature } ∧
    checkTemperaturePeriod = 5 * timerPeriod ∧
    (∃ t1 : task,
      (mainLoop noIrq 7 (startSched (fun _ => Transfer.ok 0x0A 0))).tasks[1]? = some t1 ∧
      ∀ (w : World) (c : List Nat),
        (dueCheck 1 t1 w c).1.elapsedTime = (7 * timerPeriod) % checkTemperaturePeriod) :=
  ⟨by decide, by decide, rfl, rfl,
    elapsed_after_firing_check noIrq (startSched (fun _ => Transfer.ok 0x0A 0)) 1
      { state := TEMPERATURE_SENSOR_INIT, period := checkTemperaturePeriod,
        elapsedTime := checkTemperaturePeriod, tickFunction := getAmbientTemperature }
      5 7 (by decide) (by decide) rfl rfl rfl⟩

/-- C13, as the code has it. For every task whose period P is a positive
multiple `k * 100` of the base tick and whose elapsedTime starts at a multiple
`j * 100` of the base tick in [0, P] (the task table starts it at P), whatever
the other tasks and the interrupts do: immediately after every scheduler
iteration elapsedTime lies in [0, P], and the addition of the tick did not
wrap, the stored value being the exact sum. -/
theorem elapsed_bound_on_grid (irq : Nat → World → World) (s : Sched) (i : Nat)
    (t : task) (k j N : Nat) (hk : 0 < k) (hP : k * timerPeriod < 4294967296)
    (ht : s.tasks[i]? = some t) (hp : t.period = k * timerPeriod)
    (he : t.elapsedTime = j * timerPeriod) (hj : j ≤ k) :
    ∃ t0 t1 : task, (mainLoop irq N s).tasks[i]? = some t0 ∧
      (mainLoop irq (N + 1) s).tasks[i]? = some t1 ∧
      t1.elapsedTime ≤ t.period ∧
      ∀ (w : World) (c : List Nat),
        t1.elapsedTime = (dueCheck i t0 w c).1.elapsedTime + timerPeriod := by
  obtain ⟨t0, j0, h1, h2, h3, h4⟩ := mainLoop_grid irq s i t k j hk hP ht hp he hj N
  obtain ⟨t1, g1, _, g3⟩ := iteration_task (mainLoop irq N s) i t0 h1
  refine ⟨t0, t1, h1, by rw [mainLoop_succ_tasks]; exact g1, ?_, ?_⟩
  · rw [g3, h2, h4, hp]
    unfold toULong
    unfold timerPeriod at hP ⊢
    split_ifs <;> omega
  · intro w c
    rw [g3, dueCheck_elapsedTime, h2, h4]
    unfold toULong
    unfold timerPeriod at hP ⊢
    split_ifs <;> omega

/-- Witness of C13: the heat-mode task of the task table (index 2, period
1000, started at 1000) after 4 iterations. -/
theorem elapsed_bound_on_grid_witness :
    0 < 10 ∧ 10 * timerPeriod < 4294967296 ∧
    (startSched (fun _ => Transfer.ok 0x0A 0)).tasks[2]? = some
      { state := HEAT_INIT, period := updateHeatModeAndServerPeriod,
        elapsedTime := updateHeatModeAndServerPeriod, tickFunction := setHeatMode } ∧
    updateHeatModeAndServerPeriod = 10 * timerPeriod ∧ 10 ≤ 10 ∧
    (∃ t0 t1 : task,
      (mainLoop noIrq 3 (startSched (fun _ => Transfer.ok 0x0A 0))).tasks[2]? = some t0 ∧
      (mainLoop noIrq (3 + 1) (startSched (fun _ => Transfer.ok 0x0A 0))).tasks[2]? = some t1 ∧
      t1.elapsedTime ≤ updateHeatModeAndServerPeriod ∧
      ∀ (w : World) (c : List Nat),
        t1.elapsedTime = (dueCheck 2 t0 w c).1.elapsedTime + timerPeriod) :=
  ⟨by decide, by decide, rfl, rfl, by decide,
    elapsed_bound_on_grid noIrq (startSched (fun _ => Transfer.ok 0x0A 0)) 2
      { state := HEAT_INIT, period := updateHeatModeAndServerPeriod,
        elapsedTime := updateHeatModeAndServerPeriod, tickFunction := setHeatMode }
      10 10 3 (by decide) (by decide) rfl rfl rfl (by decide)⟩

/-- C13 as stated fails: a task with period 200, a multiple of the base tick,
whose elapsedTime starts at 150, inside [0, 200], is not due in the first
iteration and holds elapsedTime 250, above its period, immediately after it. -/
theorem elapsed_bound_fails_off_grid :
    ((mainLoop noIrq 1
        { tasks := [{ state := BUTTON_INIT, period := 200, elapsedTime := 150,
                      tickFunction := adjustSetPointTemperature }],
          world := startWorld (fun _ => Transfer.ok 0x0A 0),
          calls := [] }).tasks.map (fun t => (t.period, t.elapsedTime))) = [(200, 250)] ∧
    ¬ (250 ≤ 200) := by
  decide

/-- C14. For every task table and every shared state, one pass of the loop body
of the code (for each task in index order the due check with the step and the
reset, immediately followed by the tick added to that task) gives the same
task states, the same elapsedTime values, the same globals and the same
sequence of step invocations as the two-phase pass of the specification: all
due checks in table order first, then one tick added to every task. -/
theorem iteration_eq_specPass (s : Sched) : iteration s = specPass s := by
  unfold iteration specPass
  rw [forLoop_eq_spec]

/-- C15. Every firing of setHeatMode, the suppressed first one included and
whatever ambientTemperature and setPoint it finds, adds exactly one to the
counter seconds: it is 0 at start-up, 1 after the first firing and n after the
n firings of any run `e0 :: envs`, and the next firing, number n + 1 >= 2,
reports the value n and leaves n + 1. The bound keeps the `int` counter below
its overflow. -/
theorem seconds_counter (sensor : Nat → Transfer) (e0 : Int × Int)
    (envs : List (Int × Int)) (env : Int × Int)
    (h : (e0 :: envs).length + 1 < 2147483648) :
    (heatStart sensor).2.seconds = 0 ∧
    (heatFire (heatStart sensor) env).2.seconds = 1 ∧
    (heatRun (e0 :: envs) (heatStart sensor)).2.seconds = (e0 :: envs).length ∧
    (heatFire (heatRun (e0 :: envs) (heatStart sensor)) env).2.seconds
      = (heatRun (e0 :: envs) (heatStart sensor)).2.seconds + 1 ∧
    (∃ a p t : Int, (heatFire (heatRun (e0 :: envs) (heatStart sensor)) env).2.uart
      = (heatRun (e0 :: envs) (heatStart sensor)).2.uart
        ++ [Message.report a p t (e0 :: envs).length]) := by
  have hv := heatRun_seconds_small (e0 :: envs) (heatStart sensor) rfl (by omega)
  refine ⟨rfl, rfl, hv, ?_, heatFire_report_later e0 envs env (heatStart sensor) rfl (by omega)⟩
  rw [heatFire_seconds, hv]
  exact toInt32_of_range _ (by omega) (by omega)

/-- Witness of C15: the third firing, after two that found (25, 20) and (20, 20). -/
theorem seconds_counter_witness :
    (((25 : Int), (20 : Int)) :: [((20 : Int), (20 : Int))]).length + 1 < 2147483648 ∧
    (heatRun ((25, 20) :: [(20, 20)]) (heatStart (fun _ => Transfer.ok 0x0A 0))).2.seconds
      = (((25 : Int), (20 : Int)) :: [((20 : Int), (20 : Int))]).length ∧
    (heatFire (heatRun ((25, 20) :: [(20, 20)]) (heatStart (fun _ => Transfer.ok 0x0A 0)))
        (19, 20)).2.seconds
      = (heatRun ((25, 20) :: [(20, 20)]) (heatStart (fun _ => Transfer.ok 0x0A 0))).2.seconds
        + 1 :=
  ⟨by decide,
    (seconds_counter (fun _ => Transfer.ok 0x0A 0) (25, 20) [(20, 20)] (19, 20)
      (by decide)).2.2.1,
    (seconds_counter (fun _ => Transfer.ok 0x0A 0) (25, 20) [(20, 20)] (19, 20)
      (by decide)).2.2.2.1⟩

/-- C16, as the code has it. The heat-mode task holds HEAT_INIT before its
first firing and still holds it after that firing, which is the suppressed
one; after any later firing, that is once the task has fired at least twice,
its state is HEAT_ON or HEAT_OFF and not HEAT_INIT (up to firing number 2^31
of the `int` counter). -/
theorem heat_init_left_at_second_firing (sensor : Nat → Transfer) (e0 : Int × Int)
    (envs : List (Int × Int)) (env : Int × Int) (h : (e0 :: envs).length < 2147483648) :
    (heatStart sensor).1 = HEAT_INIT ∧
    (heatFire (heatStart sensor) env).1 = HEAT_INIT ∧
    ((heatFire (heatRun (e0 :: envs) (heatStart sensor)) env).1 = HEAT_ON ∨
      (heatFire (heatRun (e0 :: envs) (heatStart sensor)) env).1 = HEAT_OFF) ∧
    (heatFire (heatRun (e0 :: envs) (heatStart sensor)) env).1 ≠ HEAT_INIT := by
  have hst := heatFire_state_later e0 envs env (heatStart sensor) rfl h
  refine ⟨rfl, rfl, ?_, ?_⟩
  · rw [hst]
    by_cases hlt : env.1 < env.2
    · left; rw [if_pos hlt]
    · right; rw [if_neg hlt]
  · rw [hst]
    by_cases hlt : env.1 < env.2
    · rw [if_pos hlt]; decide
    · rw [if_neg hlt]; decide

/-- Witness of C16: the second firing finds 19 < 20. -/
theorem heat_init_left_at_second_firing_witness :
    (((25 : Int), (20 : Int)) :: []).length < 2147483648 ∧
    (heatFire (heatStart (fun _ => Transfer.ok 0x0A 0)) (19, 20)).1 = HEAT_INIT ∧
    (heatFire (heatRun ((25, 20) :: []) (heatStart (fun _ => Transfer.ok 0x0A 0)))
        (19, 20)).1 ≠ HEAT_INIT :=
  ⟨by decide,
    (heat_init_left_at_second_firing (fun _ => Transfer.ok 0x0A 0) (25, 20) [] (19, 20)
      (by decide)).2.1,
    (heat_init_left_at_second_firing (fun _ => Transfer.ok 0x0A 0) (25, 20) [] (19, 20)
      (by decide)).2.2.2⟩

/-- C16 as stated fails: after its first firing the heat-mode task still holds
HEAT_INIT. This is so for setHeatMode fired once from start-up, and in the
scheduler: after the first iteration, and after ten of them, the heat-mode task
(index 2) has been called once and its state is HEAT_INIT. -/
theorem heat_init_survives_first_firing :
    (heatFire (heatStart (fun _ => Transfer.ok 0x0A 0)) (19, 20)).1 = HEAT_INIT ∧
    (mainLoop noIrq 1 (startSched (fun _ => Transfer.ok 0x0A 0))).calls.count 2 = 1 ∧
    (mainLoop noIrq 1 (startSched (fun _ => Transfer.ok 0x0A 0))).tasks.map (fun t => t.state)
      = [BUTTON_INIT, READ_TEMPERATURE, HEAT_INIT] ∧
    (mainLoop noIrq 10 (startSched (fun _ => Transfer.ok 0x0A 0))).calls.count 2 = 1 ∧
    (mainLoop noIrq 10 (startSched (fun _ => Transfer.ok 0x0A 0))).tasks.map (fun t => t.state)
      = [BUTTON_INIT, READ_TEMPERATURE, HEAT_INIT] := by
  decide

/-- C18. From button-task state BUTTON_INIT with an event e, increase or
decrease, pending and setpoint in [0, 99]: the first firing leaves setPoint
unchanged, leaves the register holding e and returns task state e; the second
firing, whatever value `b` an interrupt has put in the register in between,
applies the clamped +1 or -1 for e and leaves both the register and the task
state at BUTTON_INIT; the `n` firings that follow leave setPoint as the second
firing left it, so the event `b` never affects it. -/
theorem button_event_latency_and_loss (w : World) (b : Int) (n : Nat)
    (he : w.BUTTON_STATE = INCREASE_TEMPERATURE ∨ w.BUTTON_STATE = DECREASE_TEMPERATURE)
    (h : 0 ≤ w.setPoint ∧ w.setPoint ≤ 99) :
    (adjustSetPointTemperature BUTTON_INIT w).2.setPoint = w.setPoint ∧
    (adjustSetPointTemperature BUTTON_INIT w).2.BUTTON_STATE = w.BUTTON_STATE ∧
    (adjustSetPointTemperature BUTTON_INIT w).1 = w.BUTTON_STATE ∧
    (adjustSetPointTemperature (adjustSetPointTemperature BUTTON_INIT w).1
        { (adjustSetPointTemperature BUTTON_INIT w).2 with BUTTON_STATE := b }).2.setPoint
      = (if w.BUTTON_STATE = INCREASE_TEMPERATURE then min (w.setPoint + 1) 99
         else max (w.setPoint - 1) 0) ∧
    (adjustSetPointTemperature (adjustSetPointTemperature BUTTON_INIT w).1
        { (adjustSetPointTemperature BUTTON_INIT w).2 with BUTTON_STATE := b }).2.BUTTON_STATE
      = BUTTON_INIT ∧
    (adjustSetPointTemperature (adjustSetPointTemperature BUTTON_INIT w).1
        { (adjustSetPointTemperature BUTTON_INIT w).2 with BUTTON_STATE := b }).1
      = BUTTON_INIT ∧
    (buttonRun (List.replicate n ButtonEvent.fire)
        (adjustSetPointTemperature (adjustSetPointTemperature BUTTON_INIT w).1
          { (adjustSetPointTemperature BUTTON_INIT w).2 with BUTTON_STATE := b })).2.setPoint
      = (if w.BUTTON_STATE = INCREASE_TEMPERATURE then min (w.setPoint + 1) 99
         else max (w.setPoint - 1) 0) := by
  rw [adjust_idle]
  have hB : (adjustSetPointTemperature w.BUTTON_STATE
      { w with BUTTON_STATE := b }).2.BUTTON_STATE = BUTTON_INIT := by
    rw [adjust_BUTTON_STATE]
    rcases he with he | he <;> simp [he]
  have hS : (adjustSetPointTemperature w.BUTTON_STATE
      { w with BUTTON_STATE := b }).2.setPoint
      = (if w.BUTTON_STATE = INCREASE_TEMPERATURE then min (w.setPoint + 1) 99
         else max (w.setPoint - 1) 0) := by
    rw [adjust_setPoint]
    show (if w.BUTTON_STATE = INCREASE_TEMPERATURE then
          (if w.setPoint < 99 then toInt16 (w.setPoint + 1) else w.setPoint)
        else if w.BUTTON_STATE = DECREASE_TEMPERATURE then
          (if w.setPoint > 0 then toInt16 (w.setPoint - 1) else w.setPoint)
        else w.setPoint) = _
    unfold toInt16
    rcases he with he | he
    · rw [if_pos he, if_pos he]
      split_ifs <;> omega
    · have hne : ¬ w.BUTTON_STATE = INCREASE_TEMPERATURE := by
        rw [he]; decide
      rw [if_neg hne, if_pos he, if_neg hne]
      split_ifs <;> omega
  have h1 : (adjustSetPointTemperature w.BUTTON_STATE { w with BUTTON_STATE := b }).1
      = BUTTON_INIT := by
    rw [adjust_state, hB]
  refine ⟨rfl, rfl, rfl, hS, hB, h1, ?_⟩
  have hfix : adjustSetPointTemperature w.BUTTON_STATE { w with BUTTON_STATE := b }
      = (BUTTON_INIT,
          (adjustSetPointTemperature w.BUTTON_STATE { w with BUTTON_STATE := b }).2) := by
    rw [← h1]
  rw [hfix, buttonRun_fire_idle n _ hB]
  exact hS

/-- Witness of C18: setpoint 20 with an increase pending, a decrease posted
between the two firings, three more firings: setpoint ends at 21. -/
theorem button_event_latency_and_loss_witness :
    ((gpioIncreaseTemperatureCallback (startWorld (fun _ => Transfer.ok 0x0A 0))).BUTTON_STATE
        = INCREASE_TEMPERATURE ∨
      (gpioIncreaseTemperatureCallback (startWorld (fun _ => Transfer.ok 0x0A 0))).BUTTON_STATE
        = DECREASE_TEMPERATURE) ∧
    (0 ≤ (gpioIncreaseTemperatureCallback (startWorld (fun _ => Transfer.ok 0x0A 0))).setPoint ∧
      (gpioIncreaseTemperatureCallback (startWorld (fun _ => Transfer.ok 0x0A 0))).setPoint ≤ 99) ∧
    (adjustSetPointTemperature BUTTON_INIT
        (gpioIncreaseTemperatureCallback (startWorld (fun _ => Transfer.ok 0x0A 0)))).2.setPoint
      = (gpioIncreaseTemperatureCallback (startWorld (fun _ => Transfer.ok 0x0A 0))).setPoint ∧
    (buttonRun (List.replicate 3 ButtonEvent.fire)
        (adjustSetPointTemperature
          (adjustSetPointTemperature BUTTON_INIT
            (gpioIncreaseTemperatureCallback (startWorld (fun _ => Transfer.ok 0x0A 0)))).1
          { (adjustSetPointTemperature BUTTON_INIT
              (gpioIncreaseTemperatureCallback (startWorld (fun _ => Transfer.ok 0x0A 0)))).2
            with BUTTON_STATE := DECREASE_TEMPERATURE })).2.setPoint = 21 :=
  ⟨by decide, by decide,
    (button_event_latency_and_loss
      (gpioIncreaseTemperatureCallback (startWorld (fun _ => Transfer.ok 0x0A 0)))
      DECREASE_TEMPERATURE 3 (by decide) (by decide)).1,
    (button_event_latency_and_loss
      (gpioIncreaseTemperatureCallback (startWorld (fun _ => Transfer.ok 0x0A 0)))
      DECREASE_TEMPERATURE 3 (by decide) (by decide)).2.2.2.2.2.2⟩

/-- C17. For a task whose period P is a positive multiple `k * 100` of the
base tick, with elapsedTime initialised to P as in the task table, whatever the
other tasks and the interrupts do: the task is called in scheduler iteration
n + 1 if and only if n * 100 is a multiple of P, and is not called otherwise;
so it is called in the first iteration, before any tick has been waited for;
after an iteration in which it is called, the next one in which it is called
comes exactly P / 100 iterations later; and the first iteration of the task
table calls its three tasks, in table order. -/
theorem exact_firing_schedule (irq : Nat → World → World) (s : Sched) (i : Nat) (t : task)
    (k n : Nat) (hk : 0 < k) (hP : k * timerPeriod < 4294967296)
    (ht : s.tasks[i]? = some t) (hp : t.period = k * timerPeriod)
    (he : t.elapsedTime = t.period) :
    (firesIn irq s i n ↔ t.period ∣ n * timerPeriod) ∧
    (¬ firesIn irq s i n →
      (mainLoop irq (n + 1) s).calls.count i = (mainLoop irq n s).calls.count i) ∧
    firesIn irq s i 0 ∧
    (firesIn irq s i n →
      firesIn irq s i (n + t.period / timerPeriod) ∧
      ∀ j : Nat, 0 < j → j < t.period / timerPeriod → ¬ firesIn irq s i (n + j)) ∧
    (∀ sensor : Nat → Transfer, (mainLoop irq 1 (startSched sensor)).calls = [0, 1, 2]) := by
  have key := fun m => firesIn_iff_dvd irq s i t k hk hP ht hp (he.trans hp) m
  have hdiv : t.period / timerPeriod = k := by
    rw [hp]
    exact Nat.mul_div_cancel k (by decide)
  have hmul : t.period ∣ n * timerPeriod ↔ k ∣ n := by
    rw [hp]
    exact Nat.mul_dvd_mul_iff_right (by decide)
  rw [hdiv, hmul]
  refine ⟨(key n).1, ?_, ?_, ?_, fun _ => rfl⟩
  · intro hnf
    exact (key n).2 (fun hd => hnf ((key n).1.mpr hd))
  · exact (key 0).1.mpr (Nat.dvd_zero k)
  · intro hf
    have hd : k ∣ n := (key n).1.mp hf
    refine ⟨(key (n + k)).1.mpr (Nat.dvd_add hd (Nat.dvd_refl k)), ?_⟩
    intro j hj0 hjk hfj
    have hdj : k ∣ n + j := (key (n + j)).1.mp hfj
    have h7 : k ∣ j := (Nat.dvd_add_right hd).mp hdj
    have h8 : k ≤ j := Nat.le_of_dvd hj0 h7
    omega

/-- Witness of C17: the temperature task of the task table (index 1, period
500) is called in the first iteration, whatever the sensor returns. -/
theorem exact_firing_schedule_witness :
    0 < 5 ∧ 5 * timerPeriod < 4294967296 ∧
    (startSched (fun _ => Transfer.ok 0x0A 0)).tasks[1]? = some
      { state := TEMPERATURE_SENSOR_INIT, period := checkTemperaturePeriod,
        elapsedTime := checkTemperaturePeriod, tickFunction := getAmbientTemperature } ∧
    checkTemperaturePeriod = 5 * timerPeriod ∧
    firesIn noIrq (startSched (fun _ => Transfer.ok 0x0A 0)) 1 0 :=
  ⟨by decide, by decide, rfl, rfl,
    (exact_firing_schedule noIrq (startSched (fun _ => Transfer.ok 0x0A 0)) 1
      { state := TEMPERATURE_SENSOR_INIT, period := checkTemperaturePeriod,
        elapsedTime := checkTemperaturePeriod, tickFunction := getAmbientTemperature }
      5 0 (by decide) (by decide) rfl rfl rfl).2.2.1⟩

/-- C20. For every byte pair (hi, lo) of a successful transfer whose signed
16-bit value s satisfies s >= 0 or s <= -128, readTemp returns s / 128
truncated toward zero, a value in [-256, 255]; and when hi has its top bit set
the step `temperature |= 0xF000` leaves that value as it is. -/
theorem readTemp_well_behaved (w : World) (hi lo : Fin 256)
    (hs : w.sensor w.transfers = Transfer.ok hi lo)
    (hr : 0 ≤ sensorValue hi lo ∨ sensorValue hi lo ≤ -128) :
    (readTemp w).1 = Int.tdiv (sensorValue hi lo) 128 ∧
    -256 ≤ (readTemp w).1 ∧ (readTemp w).1 ≤ 255 ∧
    (hi.val &&& 0x80 ≠ 0 →
      orF000 (Int.tdiv (sensorValue hi lo) 128) = Int.tdiv (sensorValue hi lo) 128) := by
  obtain ⟨g1, g2, g3⟩ := sensorValue_range hi lo
  have hT := tdiv_128 (sensorValue hi lo)
  have hrange : -256 ≤ Int.tdiv (sensorValue hi lo) 128 ∧
      Int.tdiv (sensorValue hi lo) 128 ≤ 255 := by
    rw [hT]
    split_ifs <;> omega
  have h16 : toInt16 (Int.tdiv (sensorValue hi lo) 128) = Int.tdiv (sensorValue hi lo) 128 :=
    toInt16_of_range _ (by omega) (by omega)
  have hor : hi.val &&& 0x80 ≠ 0 →
      orF000 (Int.tdiv (sensorValue hi lo) 128) = Int.tdiv (sensorValue hi lo) 128 := by
    intro hb
    have hneg : sensorValue hi lo < 0 := g3.mp ((top_bit_iff hi).mp hb)
    have hle : sensorValue hi lo ≤ -128 := by omega
    have hTn : Int.tdiv (sensorValue hi lo) 128 ≤ -1 := by
      rw [hT, if_neg (by omega)]
      omega
    have hx : (-(Int.tdiv (sensorValue hi lo) 128) - 1).toNat < 256 := by omega
    have hb2 := orF000_negative_byte ⟨(-(Int.tdiv (sensorValue hi lo) 128) - 1).toNat, hx⟩
    have e : -(((-(Int.tdiv (sensorValue hi lo) 128) - 1).toNat : Nat) : Int) - 1
        = Int.tdiv (sensorValue hi lo) 128 := by omega
    simp only [] at hb2
    rw [e] at hb2
    exact hb2
  have hval : (readTemp w).1 = Int.tdiv (sensorValue hi lo) 128 := by
    rw [readTemp_ok w hi lo hs, h16]
    split_ifs with hb
    · exact hor hb
    · rfl
  rw [hval]
  exact ⟨rfl, hrange.1, hrange.2, hor⟩

/-- Witness of C20: the byte pair (0xFF, 0x00), value -256, decodes to -2. -/
theorem readTemp_well_behaved_witness :
    (startWorld (fun _ => Transfer.ok 0xFF 0x00)).sensor
        (startWorld (fun _ => Transfer.ok 0xFF 0x00)).transfers = Transfer.ok 0xFF 0x00 ∧
    (0 ≤ sensorValue 0xFF 0x00 ∨ sensorValue 0xFF 0x00 ≤ -128) ∧
    (readTemp (startWorld (fun _ => Transfer.ok 0xFF 0x00))).1
      = Int.tdiv (sensorValue 0xFF 0x00) 128 :=
  ⟨rfl, by decide,
    (readTemp_well_behaved (startWorld (fun _ => Transfer.ok 0xFF 0x00)) 0xFF 0x00 rfl
      (by decide)).1⟩

/-- C11. With base tick 100 and the periods 200, 500 and 1000 of the task
table, whatever the sensor returns and whatever the buttons do: after 10
scheduler iterations from start-up (1000 time units) the button task has been
called exactly 5 times, the temperature task exactly 2 times and the heat-mode
task exactly once; that one call was in the first iteration and was the
suppressed firing, since nothing has been written to the LED, no report has
been displayed and seconds is 1. -/
theorem reference_schedule (irq : Nat → World → World) (hirq : buttonOnly irq)
    (sensor : Nat → Transfer) :
    (mainLoop irq 10 (startSched sensor)).calls.count 0 = 5 ∧
    (mainLoop irq 10 (startSched sensor)).calls.count 1 = 2 ∧
    (mainLoop irq 10 (startSched sensor)).calls.count 2 = 1 ∧
    (mainLoop irq 1 (startSched sensor)).calls.count 2 = 1 ∧
    (mainLoop irq 10 (startSched sensor)).world.led = [] ∧
    reportCount (mainLoop irq 10 (startSched sensor)).world.uart = 0 ∧
    (mainLoop irq 10 (startSched sensor)).world.seconds = 1 := by
  obtain ⟨_, q0, r0, _, _, a3, a4, _, a6⟩ :=
    mainLoop_timing irq (startSched sensor) 0 _ 2 (by decide) (by decide) rfl rfl rfl 10
  obtain ⟨_, q1, r1, _, _, b3, b4, _, b6⟩ :=
    mainLoop_timing irq (startSched sensor) 1 _ 5 (by decide) (by decide) rfl rfl rfl 10
  obtain ⟨_, q2, r2, _, _, c3, c4, _, c6⟩ :=
    mainLoop_timing irq (startSched sensor) 2 _ 10 (by decide) (by decide) rfl rfl rfl 10
  obtain ⟨_, q3, r3, _, _, d3, d4, _, d6⟩ :=
    mainLoop_timing irq (startSched sensor) 2 _ 10 (by decide) (by decide) rfl rfl rfl 1
  obtain ⟨e1, e2, e3⟩ := first_period_quiet irq hirq sensor 10 (by decide) (by decide)
  have z : ∀ i : Nat, List.count i (startSched sensor).calls = 0 := fun _ => rfl
  rw [z] at a6 b6 c6 d6
  refine ⟨?_, ?_, ?_, ?_, e1, e2, e3⟩
  · rw [a6]; omega
  · rw [b6]; omega
  · rw [c6]; omega
  · rw [d6]; omega

/-- Witness of C11: no button pressed, the sensor always answering 0x0A00. -/
theorem reference_schedule_witness :
    buttonOnly noIrq ∧
    (mainLoop noIrq 10 (startSched (fun _ => Transfer.ok 0x0A 0))).calls.count 0 = 5 ∧
    (mainLoop noIrq 10 (startSched (fun _ => Transfer.ok 0x0A 0))).calls.count 1 = 2 ∧
    (mainLoop noIrq 10 (startSched (fun _ => Transfer.ok 0x0A 0))).calls.count 2 = 1 ∧
    (mainLoop noIrq 1 (startSched (fun _ => Transfer.ok 0x0A 0))).calls.count 2 = 1 ∧
    (mainLoop noIrq 10 (startSched (fun _ => Transfer.ok 0x0A 0))).world.led = [] ∧
    reportCount (mainLoop noIrq 10 (startSched (fun _ => Transfer.ok 0x0A 0))).world.uart = 0 ∧
    (mainLoop noIrq 10 (startSched (fun _ => Transfer.ok 0x0A 0))).world.seconds = 1 :=
  ⟨fun _ w => ⟨w.BUTTON_STATE, rfl⟩,
    reference_schedule noIrq (fun _ w => ⟨w.BUTTON_STATE, rfl⟩) (fun _ => Transfer.ok 0x0A 0)⟩

/-- C19. In every run of the scheduler from the initial task table, whatever
the sensor returns and whatever the interrupts do: an iteration in which the
heat-mode task compares, that is writes the LED, is not the first one and is
one in which the task is due (n >= 1 and 10 divides n), so it is a firing past
its first; and in every such iteration the temperature task, in state
READ_TEMPERATURE, is called before the heat-mode task, one more transfer has
been made, and the value setHeatMode compares with setPoint is the one that
read has just stored, never the start-up placeholder. -/
theorem comparison_follows_read (irq : Nat → World → World) (sensor : Nat → Transfer)
    (n : Nat) :
    ((iteration (mainLoop irq n (startSched sensor))).world.led
        ≠ (mainLoop irq n (startSched sensor)).world.led → 1 ≤ n ∧ 10 ∣ n) ∧
    (1 ≤ n → 10 ∣ n →
      ((mainLoop irq n (startSched sensor)).tasks.map (fun t => t.state))[1]?
        = some READ_TEMPERATURE ∧
      (iteration (mainLoop irq n (startSched sensor))).calls
        = (mainLoop irq n (startSched sensor)).calls ++ [0, 1, 2] ∧
      (iteration (mainLoop irq n (startSched sensor))).world.transfers
        = (mainLoop irq n (startSched sensor)).world.transfers + 1 ∧
      (iteration (mainLoop irq n (startSched sensor))).world.ambientTemperature
        = (readTemp (mainLoop irq n (startSched sensor)).world).1 ∧
      (iteration (mainLoop irq n (startSched sensor))).world.led
        = (if (mainLoop irq n (startSched sensor)).world.seconds ≠ 0 then
            (mainLoop irq n (startSched sensor)).world.led ++
              [if (readTemp (mainLoop irq n (startSched sensor)).world).1
                  < (iteration (mainLoop irq n (startSched sensor))).world.setPoint
               then Level.LED_ON else Level.LED_OFF]
          else (mainLoop irq n (startSched sensor)).world.led)) := by
  constructor
  · intro hcmp
    by_cases hd : 10 ∣ n
    · refine ⟨?_, hd⟩
      rcases Nat.eq_zero_or_pos n with h0 | h0
      · subst h0
        exact absurd (iteration_start sensor).1 hcmp
      · exact h0
    · exact absurd (iteration_heat_idle irq sensor n hd).1 hcmp
  · intro h1 hd
    exact iteration_heat_due irq sensor n h1 hd

/-- Witness of C19: iteration 11 of the run with no button pressed and the
sensor always answering 0x0A00 (20 degrees): the read precedes the comparison. -/
theorem comparison_follows_read_witness :
    1 ≤ 10 ∧ 10 ∣ 10 ∧
    (iteration (mainLoop noIrq 10 (startSched (fun _ => Transfer.ok 0x0A 0)))).calls
      = (mainLoop noIrq 10 (startSched (fun _ => Transfer.ok 0x0A 0))).calls ++ [0, 1, 2] ∧
    (iteration (mainLoop noIrq 10 (startSched (fun _ => Transfer.ok 0x0A 0)))).world.transfers
      = (mainLoop noIrq 10 (startSched (fun _ => Transfer.ok 0x0A 0))).world.transfers + 1 :=
  ⟨by decide, by decide,
    ((comparison_follows_read noIrq (fun _ => Transfer.ok 0x0A 0) 10).2
      (by decide) (by decide)).2.1,
    ((comparison_follows_read noIrq (fun _ => Transfer.ok 0x0A 0) 10).2
      (by decide) (by decide)).2.2.1⟩

namespace Uart2Echo

/-- C21. For every typed character sequence `cs` from STATE_IDLE and every next
character `c`: the state reached is STATE_IDLE, STATE_O or STATE_F and the
thread has not stopped; the step on `c` writes the LED on and the text LED ON
exactly when the state is STATE_O and `c` is N, writes the LED off and the text
LED OFF exactly when the state is STATE_F and `c` is F, and writes nothing
otherwise; the state after the step is STATE_O from STATE_IDLE on O, STATE_F
from STATE_O on F, and STATE_IDLE in every other case, so after either action
and after any unexpected character. Hence from any idle machine `m` typing ON
adds one LED-on write and typing OFF adds one LED-off write, each with its
text, and leaves the state at STATE_IDLE. -/
theorem echo_recogniser (cs : List (Fin 256)) (c : Fin 256) (m : Machine) :
    ((mainThread (typed cs) start).state = STATE_IDLE ∨
      (mainThread (typed cs) start).state = STATE_O ∨
      (mainThread (typed cs) start).state = STATE_F) ∧
    (mainThread (typed cs) start).halted = false ∧
    (mainThread (typed (cs ++ [c])) start).led
      = (mainThread (typed cs) start).led ++
        (if (mainThread (typed cs) start).state = STATE_O ∧ c.val = 'N'.toNat
          then [Level.LED_ON]
         else if (mainThread (typed cs) start).state = STATE_F ∧ c.val = 'F'.toNat
          then [Level.LED_OFF]
         else []) ∧
    (mainThread (typed (cs ++ [c])) start).uart
      = (mainThread (typed cs) start).uart ++
        (if (mainThread (typed cs) start).state = STATE_O ∧ c.val = 'N'.toNat
          then [Text.LED_ON_TEXT]
         else if (mainThread (typed cs) start).state = STATE_F ∧ c.val = 'F'.toNat
          then [Text.LED_OFF_TEXT]
         else []) ∧
    (mainThread (typed (cs ++ [c])) start).state
      = (if (mainThread (typed cs) start).state = STATE_IDLE ∧ c.val = 'O'.toNat
          then STATE_O
         else if (mainThread (typed cs) start).state = STATE_O ∧ c.val = 'F'.toNat
          then STATE_F
         else STATE_IDLE) ∧
    mainThread (typed [byte 'O' (by decide), byte 'N' (by decide)])
        { m with state := STATE_IDLE, halted := false }
      = { state := STATE_IDLE, led := m.led ++ [Level.LED_ON],
          uart := m.uart ++ [Text.LED_ON_TEXT], halted := false } ∧
    mainThread (typed [byte 'O' (by decide), byte 'F' (by decide), byte 'F' (by decide)])
        { m with state := STATE_IDLE, halted := false }
      = { state := STATE_IDLE, led := m.led ++ [Level.LED_OFF],
          uart := m.uart ++ [Text.LED_OFF_TEXT], halted := false } := by
  obtain ⟨hh, hs⟩ := mainThread_typed_invariant cs
  rw [mainThread_snoc, loopBody_ok _ _ hh]
  exact ⟨hs, hh, switchState_led _ c, switchState_uart _ c, switchState_state _ c, rfl, rfl⟩

end Uart2Echo

end Thermostat
